import Mathlib

/-!
Verification of the bootstrap coordinator of `tedix-hq/tedix-claw`.

The subject program is the shell script `start-openclaw.sh` (liveness probe,
lock-directory mutual exclusion, R2 restore decision, first-boot onboarding,
an embedded node configuration-patch script, setup-token injection and the
gateway launch) together with `syncToR2` from `src/gateway/sync.ts`.

JSON configuration documents are embedded as the inductive `JVal`, with
JavaScript objects as association lists in insertion order.  Property
assignment on a non-object target is a silent no-op at the document level
(in JavaScript it is either a silent no-op on a primitive or a `TypeError`
that aborts the node script before anything is written back to disk; in
both cases the persisted document does not receive the write), and property
reads on non-objects yield `none` (`undefined`).  JSON numbers are embedded
as `Int`: the script only ever writes integer literals, and none of the
verified properties depend on non-integer numerals.
-/

set_option autoImplicit false

namespace Claw

/-- A JSON value.  Objects are association lists in insertion order, exactly
as JavaScript objects behave under `Object.keys` / property assignment. -/
inductive JVal where
  | null
  | bool (b : Bool)
  | num (n : Int)
  | str (s : String)
  | arr (elems : List JVal)
  | obj (fields : List (String × JVal))

/-- First value stored under a key (JavaScript property read on an object). -/
def getK : List (String × JVal) → String → Option JVal
  | [], _ => none
  | (k, v) :: rest, key => if k = key then some v else getK rest key

/-- JavaScript property assignment on an object: update the key in place if
present, otherwise append it (insertion order). -/
def setK : List (String × JVal) → String → JVal → List (String × JVal)
  | [], key, v => [(key, v)]
  | (k, w) :: rest, key, v =>
      if k = key then (k, v) :: rest else (k, w) :: setK rest key v

/-- JavaScript `delete obj[key]`: remove the binding of the key.  (A real
JavaScript object stores a key at most once; on association lists with
duplicated keys — which no `JSON.parse` result exhibits — every occurrence
is removed.) -/
def delK : List (String × JVal) → String → List (String × JVal)
  | [], _ => []
  | (k, w) :: rest, key =>
      if k = key then delK rest key else (k, w) :: delK rest key

/-- Property read `v[k]`: `undefined` (`none`) when `v` is not an object. -/
def jGet : JVal → String → Option JVal
  | .obj fields, k => getK fields k
  | _, _ => none

/-- Property write `v[k] = x`: a no-op at the document level when `v` is not
an object (see the module comment). -/
def jSet (v : JVal) (k : String) (x : JVal) : JVal :=
  match v with
  | .obj fields => .obj (setK fields k x)
  | _ => v

/-- `delete v[k]`, a no-op when `v` is not an object. -/
def jDel (v : JVal) (k : String) : JVal :=
  match v with
  | .obj fields => .obj (delK fields k)
  | _ => v

/-- JavaScript truthiness of a read result (`undefined`, `null`, `false`,
`0` and the empty string are falsy; arrays and objects are truthy). -/
def truthy : Option JVal → Bool
  | none => false
  | some .null => false
  | some (.bool b) => b
  | some (.num n) => n != 0
  | some (.str s) => s != ""
  | some (.arr _) => true
  | some (.obj _) => true

/-- The `x || {}` idiom: keep a truthy value, replace a falsy one by `{}`. -/
def orEmptyObj (v : Option JVal) : JVal :=
  if truthy v then v.getD (.obj []) else .obj []

/-- `c[k] = f c[k]` for an always-written key (`config.x = config.x || {}`
and friends); a no-op when `c` itself is not an object. -/
def jUpd (c : JVal) (k : String) (f : Option JVal → JVal) : JVal :=
  match c with
  | .obj fields => .obj (setK fields k (f (getK fields k)))
  | _ => c

/-- Modify the value under `k` when present (`c.k.sub = …` style writes go
through the existing object under `k`); a no-op when `k` is absent. -/
def jModify (c : JVal) (k : String) (f : JVal → JVal) : JVal :=
  match jGet c k with
  | some w => jSet c k (f w)
  | none => c

/-- Chased property read along a path (optional-chaining semantics: any
missing or non-object intermediate yields `none`). -/
def jGetPath : JVal → List String → Option JVal
  | c, [] => some c
  | c, k :: rest =>
      match jGet c k with
      | some w => jGetPath w rest
      | none => none

/-- An environment variable is "set" for `[ -n "$X" ]` / `process.env.X`
truthiness exactly when it is present and non-empty. -/
def envSet : Option String → Bool
  | none => false
  | some s => s != ""

/-- Whether a value is an object. -/
def isObj : JVal → Bool
  | .obj _ => true
  | _ => false

/-- Strict-equality test `v === 's'` against a string literal. -/
def isStrVal (v : Option JVal) (s : String) : Bool :=
  match v with
  | some (.str t) => t = s
  | _ => false

/-- The environment variables consumed by `start-openclaw.sh`.  `none` means
the variable is unset; the empty string is indistinguishable from unset for
every use site (`[ -n "$X" ]` and `process.env.X` truthiness). -/
structure Env where
  cloudflareAiGatewayApiKey : Option String := none
  cfAiGatewayAccountId : Option String := none
  cfAiGatewayGatewayId : Option String := none
  anthropicApiKey : Option String := none
  openaiApiKey : Option String := none
  openclawGatewayToken : Option String := none
  openclawDevMode : Option String := none
  cfAiGatewayModel : Option String := none
  cfAccountId : Option String := none
  telegramBotToken : Option String := none
  telegramDmPolicy : Option String := none
  telegramDmAllowFrom : Option String := none
  discordBotToken : Option String := none
  discordDmPolicy : Option String := none
  slackBotToken : Option String := none
  slackAppToken : Option String := none
  claudeSetupToken : Option String := none

/-! ### The embedded node patch script (`node << 'EOFPATCH' …`)

Each statement of the patch script is translated in source order.  Writes of
the form `config.gateway.x = v` go through the object stored under
`"gateway"`, which the script has just ensured to exist
(`config.gateway = config.gateway || {}`). -/

/-- `config.gateway.port = 18789; config.gateway.mode = 'local';
config.gateway.trustedProxies = ['10.1.0.0']`, as a transformation of the
value stored under `"gateway"`. -/
def gwBase (g : JVal) : JVal :=
  jSet (jSet (jSet g "port" (.num 18789)) "mode" (.str "local"))
    "trustedProxies" (.arr [.str "10.1.0.0"])

/-- `if (process.env.OPENCLAW_GATEWAY_TOKEN) { config.gateway.auth =
config.gateway.auth || {}; config.gateway.auth.token = … }`. -/
def gwAuth (e : Env) (g : JVal) : JVal :=
  if envSet e.openclawGatewayToken then
    jModify (jSet g "auth" (orEmptyObj (jGet g "auth"))) "auth"
      (fun a => jSet a "token" (.str (e.openclawGatewayToken.getD "")))
  else g

/-- `if (process.env.OPENCLAW_DEV_MODE === 'true') { config.gateway.controlUi
= … || {}; config.gateway.controlUi.allowInsecureAuth = true }`. -/
def gwDev (e : Env) (g : JVal) : JVal :=
  if e.openclawDevMode = some "true" then
    jModify (jSet g "controlUi" (orEmptyObj (jGet g "controlUi"))) "controlUi"
      (fun u => jSet u "allowInsecureAuth" (.bool true))
  else g

/-- The four unconditional HTTP-endpoint statements
(`config.gateway.http = … || {}; config.gateway.http.endpoints = … || {};
…endpoints.chatCompletions = { enabled: true };
…endpoints.responses = { enabled: true }`). -/
def gwHttp (g : JVal) : JVal :=
  jModify
    (jModify
      (jModify (jSet g "http" (orEmptyObj (jGet g "http"))) "http"
        (fun h => jSet h "endpoints" (orEmptyObj (jGet h "endpoints"))))
      "http"
      (fun h => jModify h "endpoints"
        (fun en => jSet en "chatCompletions" (.obj [("enabled", .bool true)]))))
    "http"
    (fun h => jModify h "endpoints"
      (fun en => jSet en "responses" (.obj [("enabled", .bool true)])))

/-- All statements of the patch script that write below `config.gateway`,
in source order. -/
def gwSettings (e : Env) (g : JVal) : JVal :=
  gwHttp (gwDev e (gwAuth e (gwBase g)))

/-- `k.startsWith('cf-ai-gw-')`. -/
def staleAiGatewayKey (k : String) : Bool := k.startsWith "cf-ai-gw-"

/-- `for (const key of staleKeys) delete config.models.providers[key]`,
where `staleKeys = Object.keys(providers).filter(k => k.startsWith('cf-ai-gw-'))`. -/
def delStaleProviders (pf : List (String × JVal)) : List (String × JVal) :=
  ((pf.map Prod.fst).filter staleAiGatewayKey).foldl delK pf

/-- `defaultModel && defaultModel.startsWith('cf-ai-gw-')` (only a string
value can satisfy the call; a truthy non-string raises before any write). -/
def staleDefaultModel : Option JVal → Bool
  | some (.str s) => s.startsWith "cf-ai-gw-"
  | _ => false

/-- `if (config.models && config.models.providers) { … delete stale
providers … }`: drop every `cf-ai-gw-*` provider entry.  (`Object.keys` of
a truthy non-object yields no `cf-ai-gw-*` key, so nothing is written
there.) -/
def staleProvidersPart (c : JVal) : JVal :=
  if truthy (jGet c "models") && truthy (jGetPath c ["models", "providers"]) then
    match jGetPath c ["models", "providers"] with
    | some (.obj pf) =>
        jModify c "models" (fun m => jSet m "providers" (.obj (delStaleProviders pf)))
    | _ => c
  else c

/-- Clear `config.agents.defaults.model` when its `primary` points at a
removed `cf-ai-gw-*` provider. -/
def staleModelPart (c : JVal) : JVal :=
  if staleDefaultModel (jGetPath c ["agents", "defaults", "model", "primary"]) then
    jModify c "agents" (fun a => jModify a "defaults" (fun d => jDel d "model"))
  else c

/-- Stale AI-Gateway cleanup: when neither `CF_AI_GATEWAY_MODEL` nor
`CLOUDFLARE_AI_GATEWAY_API_KEY` is set, drop `cf-ai-gw-*` provider entries
and clear a default model that points at one of them. -/
def staleCleanup (e : Env) (c : JVal) : JVal :=
  if !envSet e.cfAiGatewayModel && !envSet e.cloudflareAiGatewayApiKey then
    staleModelPart (staleProvidersPart c)
  else c

/-- The six write statements of the model-override block: ensure
`config.models`, ensure `config.models.providers`, store the provider
entry, ensure `config.agents`, ensure `config.agents.defaults`, set the
default model to `providerName + '/' + modelId`. -/
def aiGatewayWrite (providerName : String) (entry : JVal) (modelId : String)
    (c : JVal) : JVal :=
  jModify
    (jModify
      (jUpd
        (jModify
          (jModify (jUpd c "models" orEmptyObj) "models"
            (fun m => jSet m "providers" (orEmptyObj (jGet m "providers"))))
          "models" (fun m => jModify m "providers" (fun p => jSet p providerName entry)))
        "agents" orEmptyObj)
      "agents" (fun a => jSet a "defaults" (orEmptyObj (jGet a "defaults"))))
    "agents" (fun a => jModify a "defaults"
      (fun d => jSet d "model" (.obj [("primary", .str (providerName ++ "/" ++ modelId))])))

/-- `gwProvider = raw.substring(0, slashIdx)`. -/
def gwProviderOf (raw : String) (slashIdx : Nat) : String :=
  (raw.toList.take slashIdx).asString

/-- `modelId = raw.substring(slashIdx + 1)`. -/
def modelIdOf (raw : String) (slashIdx : Nat) : String :=
  (raw.toList.drop (slashIdx + 1)).asString

/-- The `baseUrl` computation of the model-override block. -/
def aiGatewayBaseUrl (e : Env) (gwProvider : String) : Option String :=
  if envSet e.cfAiGatewayAccountId && envSet e.cfAiGatewayGatewayId then
    some ("https://gateway.ai.cloudflare.com/v1/" ++ e.cfAiGatewayAccountId.getD ""
      ++ "/" ++ e.cfAiGatewayGatewayId.getD "" ++ "/" ++ gwProvider
      ++ (if gwProvider = "workers-ai" then "/v1" else ""))
  else if gwProvider = "workers-ai" && envSet e.cfAccountId then
    some ("https://api.cloudflare.com/client/v4/accounts/" ++ e.cfAccountId.getD "" ++ "/ai/v1")
  else none

/-- The provider entry stored under `cf-ai-gw-<provider>`
(`api` is `anthropic-messages` for the Anthropic provider and
`openai-completions` otherwise). -/
def aiGatewayEntry (e : Env) (gwProvider modelId : String) : JVal :=
  .obj
    [("baseUrl", .str ((aiGatewayBaseUrl e gwProvider).getD "")),
     ("apiKey", .str (e.cloudflareAiGatewayApiKey.getD "")),
     ("api", .str (if gwProvider = "anthropic" then "anthropic-messages" else "openai-completions")),
     ("models", .arr [.obj [("id", .str modelId), ("name", .str modelId),
       ("contextWindow", .num 131072), ("maxTokens", .num 8192)]])]

/-- The `CF_AI_GATEWAY_MODEL=provider/model-id` override block.  The slash
split uses the character list of the string (`indexOf('/') <= 0` rejects a
missing or leading slash). -/
def aiGatewayOverride (e : Env) (c : JVal) : JVal :=
  if envSet e.cfAiGatewayModel then
    match (e.cfAiGatewayModel.getD "").toList.indexOf? '/' with
    | none => c
    | some slashIdx =>
      if slashIdx = 0 then c
      else if (aiGatewayBaseUrl e (gwProviderOf (e.cfAiGatewayModel.getD "") slashIdx)).isSome
          && envSet e.cloudflareAiGatewayApiKey then
        aiGatewayWrite ("cf-ai-gw-" ++ gwProviderOf (e.cfAiGatewayModel.getD "") slashIdx)
          (aiGatewayEntry e (gwProviderOf (e.cfAiGatewayModel.getD "") slashIdx)
            (modelIdOf (e.cfAiGatewayModel.getD "") slashIdx))
          (modelIdOf (e.cfAiGatewayModel.getD "") slashIdx) c
      else c
  else c

/-- `VALID_TELEGRAM_KEYS`, copied from the source. -/
def VALID_TELEGRAM_KEYS : List String :=
  ["name", "capabilities", "markdown", "commands", "customCommands", "configWrites",
   "dmPolicy", "enabled", "botToken", "tokenFile", "replyToMode", "groups",
   "allowFrom", "groupAllowFrom", "groupPolicy", "historyLimit", "dmHistoryLimit", "dms",
   "textChunkLimit", "chunkMode", "blockStreaming", "draftChunk", "blockStreamingCoalesce",
   "streamMode", "mediaMaxMb", "timeoutSeconds", "retry", "network", "proxy",
   "webhookUrl", "webhookSecret", "webhookPath", "actions", "reactionNotifications",
   "reactionLevel", "heartbeat", "linkPreview", "responsePrefix", "accounts"]

/-- `VALID_DISCORD_KEYS`, copied from the source. -/
def VALID_DISCORD_KEYS : List String :=
  ["name", "capabilities", "markdown", "commands", "configWrites", "enabled", "token",
   "allowBots", "groupPolicy", "textChunkLimit", "chunkMode", "blockStreaming",
   "blockStreamingCoalesce", "maxLinesPerMessage", "mediaMaxMb", "historyLimit",
   "dmHistoryLimit", "dms", "retry", "actions", "replyToMode", "dm", "guilds",
   "heartbeat", "execApprovals", "intents", "pluralkit", "responsePrefix", "accounts"]

/-- `VALID_SLACK_KEYS`, copied from the source. -/
def VALID_SLACK_KEYS : List String :=
  ["name", "capabilities", "markdown", "commands", "configWrites", "enabled",
   "botToken", "appToken", "userToken", "userTokenReadOnly", "allowBots",
   "requireMention", "groupPolicy", "historyLimit", "dmHistoryLimit", "dms",
   "textChunkLimit", "chunkMode", "blockStreaming", "blockStreamingCoalesce",
   "mediaMaxMb", "reactionNotifications", "reactionAllowlist", "replyToMode",
   "replyToModeByChatType", "thread", "actions", "slashCommand", "dm",
   "channels", "heartbeat", "responsePrefix", "accounts"]

/-- `filterKeys(obj, validKeys)`: keep the bindings whose key is in the
allow-list.  `Object.keys` of a non-object yields no allow-listed key, so
the result is `{}` there. -/
def filterKeys (v : JVal) (validKeys : List String) : List (String × JVal) :=
  match v with
  | .obj fields => fields.filter (fun kv => validKeys.contains kv.1)
  | _ => []

/-- The keys the `filterKeys` loop logs as
`'Stripped unknown channel key:'` (its `else` branch). -/
def strippedKeys (v : JVal) (validKeys : List String) : List String :=
  match v with
  | .obj fields => (fields.map Prod.fst).filter (fun k => !validKeys.contains k)
  | _ => []

/-- Read `l[k1][k2]` inside a channel block (`existing.dm.policy`). -/
def getIn (l : List (String × JVal)) (k1 k2 : String) : Option JVal :=
  match getK l k1 with
  | some w => jGet w k2
  | none => none

/-- Write `l[k1][k2] = v` inside a channel block (`existing.dm.policy = …`);
a document-level no-op when `l[k1]` is missing or not an object. -/
def setIn (l : List (String × JVal)) (k1 k2 : String) (v : JVal) : List (String × JVal) :=
  match getK l k1 with
  | some w => setK l k1 (jSet w k2 v)
  | none => l

/-- The first three statements of the Telegram branch:
`existing = filterKeys(config.channels.telegram || {}, VALID_TELEGRAM_KEYS);
existing.botToken = …; existing.enabled = true`. -/
def telegramBase (e : Env) (old : Option JVal) : List (String × JVal) :=
  setK (setK (filterKeys (orEmptyObj old) VALID_TELEGRAM_KEYS)
      "botToken" (.str (e.telegramBotToken.getD "")))
    "enabled" (.bool true)

/-- `if (process.env.TELEGRAM_DM_POLICY) existing.dmPolicy = …`. -/
def telegramEnvPolicy (e : Env) (l : List (String × JVal)) : List (String × JVal) :=
  if envSet e.telegramDmPolicy
  then setK l "dmPolicy" (.str (e.telegramDmPolicy.getD "")) else l

/-- `if (!existing.dmPolicy) existing.dmPolicy = 'pairing'`. -/
def telegramDefaultPolicy (l : List (String × JVal)) : List (String × JVal) :=
  if !truthy (getK l "dmPolicy") then setK l "dmPolicy" (.str "pairing") else l

/-- The `allowFrom` writes of the Telegram branch
(`TELEGRAM_DM_ALLOW_FROM` overlay, else the open-policy wildcard). -/
def telegramAllowFrom (e : Env) (l : List (String × JVal)) : List (String × JVal) :=
  if envSet e.telegramDmAllowFrom then
    setK l "allowFrom" (.arr (((e.telegramDmAllowFrom.getD "").splitOn ",").map JVal.str))
  else if isStrVal (getK l "dmPolicy") "open" && !truthy (getK l "allowFrom") then
    setK l "allowFrom" (.arr [.str "*"])
  else l

/-- The Telegram block built when `TELEGRAM_BOT_TOKEN` is set:
`filterKeys(config.channels.telegram || {}, VALID_TELEGRAM_KEYS)` followed
by the environment overlay, in source order. -/
def telegramBlock (e : Env) (old : Option JVal) : List (String × JVal) :=
  telegramAllowFrom e (telegramDefaultPolicy (telegramEnvPolicy e (telegramBase e old)))

/-- `existing.dm = existing.dm || {}` of the Discord branch. -/
def discordEnsureDm (l : List (String × JVal)) : List (String × JVal) :=
  setK l "dm" (orEmptyObj (getK l "dm"))

/-- `if (process.env.DISCORD_DM_POLICY) existing.dm.policy = …`. -/
def discordEnvPolicy (e : Env) (l : List (String × JVal)) : List (String × JVal) :=
  if envSet e.discordDmPolicy
  then setIn l "dm" "policy" (.str (e.discordDmPolicy.getD "")) else l

/-- `if (!existing.dm.policy) existing.dm.policy = 'pairing'`. -/
def discordDefaultPolicy (l : List (String × JVal)) : List (String × JVal) :=
  if !truthy (getIn l "dm" "policy") then setIn l "dm" "policy" (.str "pairing") else l

/-- The open-policy wildcard write of the Discord branch. -/
def discordOpenAllow (l : List (String × JVal)) : List (String × JVal) :=
  if isStrVal (getIn l "dm" "policy") "open" && !truthy (getIn l "dm" "allowFrom") then
    setIn l "dm" "allowFrom" (.arr [.str "*"])
  else l

/-- The Discord block built when `DISCORD_BOT_TOKEN` is set. -/
def discordBlock (e : Env) (old : Option JVal) : List (String × JVal) :=
  discordOpenAllow (discordDefaultPolicy (discordEnvPolicy e (discordEnsureDm
    (setK (setK (filterKeys (orEmptyObj old) VALID_DISCORD_KEYS)
        "token" (.str (e.discordBotToken.getD "")))
      "enabled" (.bool true)))))

/-- The Slack block built when both Slack tokens are set. -/
def slackBlock (e : Env) (old : Option JVal) : List (String × JVal) :=
  setK (setK (setK (filterKeys (orEmptyObj old) VALID_SLACK_KEYS)
        "botToken" (.str (e.slackBotToken.getD "")))
      "appToken" (.str (e.slackAppToken.getD "")))
    "enabled" (.bool true)

/-- `if (process.env.TELEGRAM_BOT_TOKEN) { …; config.channels.telegram =
existing }`, as a transformation of the value under `"channels"`. -/
def telegramStep (e : Env) (ch : JVal) : JVal :=
  if envSet e.telegramBotToken then
    jSet ch "telegram" (.obj (telegramBlock e (jGet ch "telegram")))
  else ch

/-- The Discord branch of the patch script. -/
def discordStep (e : Env) (ch : JVal) : JVal :=
  if envSet e.discordBotToken then
    jSet ch "discord" (.obj (discordBlock e (jGet ch "discord")))
  else ch

/-- The Slack branch of the patch script
(`SLACK_BOT_TOKEN && SLACK_APP_TOKEN`). -/
def slackStep (e : Env) (ch : JVal) : JVal :=
  if envSet e.slackBotToken && envSet e.slackAppToken then
    jSet ch "slack" (.obj (slackBlock e (jGet ch "slack")))
  else ch

/-- All three channel branches, in source order. -/
def channelsSettings (e : Env) (ch : JVal) : JVal :=
  slackStep e (discordStep e (telegramStep e ch))

/-- The whole embedded patch script as a document transformation, reading
inside-out in source order: ensure the `gateway` object, ensure the
`channels` object, write the gateway settings, run the stale AI-Gateway
cleanup and the model override, then merge the channel blocks. -/
def patchConfig (e : Env) (c0 : JVal) : JVal :=
  jModify
    (aiGatewayOverride e (staleCleanup e
      (jModify (jUpd (jUpd c0 "gateway" orEmptyObj) "channels" orEmptyObj)
        "gateway" (gwSettings e))))
    "channels" (channelsSettings e)

/-! ### Restore decision (`should_restore_from_r2`) -/

/-- `date -d "$T" +%s 2>/dev/null || echo "0"`: the epoch of a marker
string under an abstract parser, with an unparseable marker read as epoch
zero. -/
def markerEpoch (dateParse : String → Option Int) (s : String) : Int :=
  (dateParse s).getD 0

/-- `should_restore_from_r2`: no backup marker ⇒ no restore; no local
marker (but a backup marker) ⇒ restore; otherwise restore exactly when the
backup epoch is strictly greater. -/
def should_restore_from_r2 (dateParse : String → Option Int)
    (r2Sync localSync : Option String) : Bool :=
  match r2Sync with
  | none => false
  | some r2Time =>
    match localSync with
    | none => true
    | some localTime =>
        markerEpoch dateParse r2Time > markerEpoch dateParse localTime

/-- The specification's reading of a marker state: a missing marker is
`-∞`, a present one is its epoch (an unparseable one being epoch zero).
Stated from the spec's words, to be compared with
`should_restore_from_r2`. -/
def specMarkerValue (dateParse : String → Option Int) : Option String → WithBot Int
  | none => ⊥
  | some s => (markerEpoch dateParse s : Int)

/-! ### Onboarding credential choice (`AUTH_ARGS`) -/

/-- Which credential the `AUTH_ARGS` chain selects. -/
inductive AuthChoice where
  | cloudflareAiGateway
  | anthropicKey
  | openaiKey
  | noAuth
deriving DecidableEq

/-- The `AUTH_ARGS` if/elif chain: the Cloudflare AI-Gateway branch needs
all three of its variables, then `ANTHROPIC_API_KEY`, then
`OPENAI_API_KEY`, else no auth arguments. -/
def authChoice (e : Env) : AuthChoice :=
  if envSet e.cloudflareAiGatewayApiKey && envSet e.cfAiGatewayAccountId
      && envSet e.cfAiGatewayGatewayId then
    .cloudflareAiGateway
  else if envSet e.anthropicApiKey then .anthropicKey
  else if envSet e.openaiApiKey then .openaiKey
  else .noAuth

/-! ### Setup-token injection (`node << 'EOFTOKEN' …`) -/

/-- `profileId = provider + ':default'` with `provider = 'anthropic'`. -/
def setupProfileId : String := "anthropic:default"

/-- The JavaScript guard `profiles.profiles[profileId] &&
profiles.profiles[profileId].token`, read off the store as persisted. -/
def tokenPersisted (profiles : JVal) : Bool :=
  truthy (jGetPath profiles ["profiles", setupProfileId])
    && truthy (jGetPath profiles ["profiles", setupProfileId, "token"])

/-- `profiles.profiles[profileId] = { type: 'token', provider: 'anthropic',
token: CLAUDE_SETUP_TOKEN.trim() }`, on the store with `profiles` already
ensured. -/
def injectProfilesWrite (tok : String) (p1 : JVal) : JVal :=
  jModify p1 "profiles" (fun pp => jSet pp setupProfileId (.obj
    [("type", .str "token"), ("provider", .str "anthropic"), ("token", .str tok.trim)]))

/-- `config.auth = config.auth || {}; config.auth.profiles = … || {};
config.auth.profiles[profileId] = { provider: 'anthropic', mode: 'token' }`. -/
def injectConfigAuth (c : JVal) : JVal :=
  jModify
    (jModify (jUpd c "auth" orEmptyObj) "auth"
      (fun a => jSet a "profiles" (orEmptyObj (jGet a "profiles"))))
    "auth" (fun a => jModify a "profiles" (fun pp =>
      jSet pp setupProfileId (.obj [("provider", .str "anthropic"), ("mode", .str "token")])))

/-- `config.models = config.models || {}; config.models.providers = … || {}`. -/
def ensureProviders (c : JVal) : JVal :=
  jModify (jUpd c "models" orEmptyObj) "models"
    (fun m => jSet m "providers" (orEmptyObj (jGet m "providers")))

/-- `if (!config.models.providers.anthropic) config.models.providers.anthropic
= { api: 'anthropic-messages' }` after the ensures. -/
def injectConfigModels (c : JVal) : JVal :=
  if !truthy (jGetPath (ensureProviders c) ["models", "providers", "anthropic"]) then
    jModify (ensureProviders c) "models" (fun m => jModify m "providers" (fun p =>
      jSet p "anthropic" (.obj [("api", .str "anthropic-messages")])))
  else ensureProviders c

/-- The embedded token-injection node script: ensure `profiles.profiles`,
and only when no token is persisted under the profile, write the trimmed
token, reference the profile in the configuration and add a default
Anthropic provider entry when absent.  In the other branch nothing is
written back, so both documents are returned unchanged. -/
def injectSetupToken (tok : String) (profiles0 config0 : JVal) : JVal × JVal :=
  if !truthy (jGetPath (jUpd profiles0 "profiles" orEmptyObj)
        ["profiles", setupProfileId])
      || !truthy (jGetPath (jUpd profiles0 "profiles" orEmptyObj)
        ["profiles", setupProfileId, "token"]) then
    (injectProfilesWrite tok (jUpd profiles0 "profiles" orEmptyObj),
     injectConfigModels (injectConfigAuth config0))
  else (profiles0, config0)

/-- A read result that is either an object or falsy — the shapes on which a
JavaScript `x = x || {}` ensure-then-write sequence actually lands the
write.  (A truthy primitive there survives the `||` and then silently
swallows property writes.) -/
def objOrFalsy (v : Option JVal) : Bool :=
  match v with
  | some (.obj _) => true
  | w => !truthy w

/-- `objOrFalsy` one level down, under an object stored at `k1` (trivially
true when `k1` holds no object, since the nested ensure then starts from
`{}` or no-ops entirely). -/
def objOrFalsyAt (c : JVal) (k1 k2 : String) : Bool :=
  match jGet c k1 with
  | some (.obj f) => objOrFalsy (getK f k2)
  | _ => true

/-- Well-shapedness of `auth-profiles.json` as the injection script itself
produces and consumes it: a JSON object whose `profiles` member is an
object or absent/falsy. -/
def wfProfilesStore (p : JVal) : Bool :=
  isObj p && objOrFalsy (jGet p "profiles")

/-- Well-shapedness of `openclaw.json` along the paths the injection script
writes (`auth.profiles` and `models.providers`). -/
def wfConfigStore (c : JVal) : Bool :=
  isObj c && objOrFalsy (jGet c "auth") && objOrFalsy (jGet c "models")
    && objOrFalsyAt c "auth" "profiles" && objOrFalsyAt c "models" "providers"

/-! ### The sequential run of `start-openclaw.sh`

A single invocation, with every external effect (the `date` parser, the
bounded `cp` copies, the `openclaw onboard` call, the gateway's eventual
exit code) supplied by an oracle.  Lock contention needs interleavings and
is modelled separately below. -/

/-- How the gateway child is started. -/
inductive LaunchMode where
  | childWait
  | execReplace
deriving DecidableEq

/-- The flags of the `openclaw gateway` invocation and how the script runs
it.  The script starts the gateway with `&`, records `GATEWAY_PID`, waits
for it, and exits with the child's code — `childWait`, not `execReplace`. -/
structure LaunchSpec where
  port : Nat
  bind : String
  verbose : Bool
  allowUnconfigured : Bool
  token : Option String
  mode : LaunchMode
deriving DecidableEq

/-- The filesystem state the script touches. -/
structure World where
  listening : Bool
  lockDir : Bool
  localConfig : Option JVal
  localSync : Option String
  backupConfig : Option JVal
  backupSync : Option String
  backupWorkspaceNonempty : Bool
  backupSkillsNonempty : Bool
  workspaceFromBackup : Bool
  skillsFromBackup : Bool
  profiles : JVal

/-- Outcomes of the external steps the script invokes. -/
structure Oracle where
  dateParse : String → Option Int
  cpConfigOk : Bool
  cpWorkspaceOk : Bool
  cpSkillsOk : Bool
  onboardOk : Bool
  onboardOutput : JVal
  gatewayExit : Int

/-- What a caller observes. -/
inductive Outcome where
  | alreadyRunning
  | onboardFailed
  | started
deriving DecidableEq

/-- Result of one sequential invocation: the outcome, the world while the
gateway runs (for `started`), which steps ran, the launch performed, and
the script's own exit — `lockAfterExit` is the lock artifact's state once
the script has exited (the `EXIT` trap removes it on every exit path taken
after acquisition). -/
structure RunResult where
  outcome : Outcome
  world : World
  didRestoreConfig : Bool
  didRestoreWorkspace : Bool
  didRestoreSkills : Bool
  didOnboard : Bool
  onboardAuth : Option AuthChoice
  didPatch : Bool
  didInject : Bool
  launched : Option LaunchSpec
  staleLockRecovered : Bool
  lockAfterExit : Bool
  exitCode : Option Int

/-- The three restore blocks, in source order.  A successful config restore
copies the backup's `.last-sync` over the local one, so the later
`should_restore_from_r2` calls for the workspace and skills trees see the
updated local marker.  A failed or timed-out copy is a warning and leaves
the tree as it was. -/
def restorePhase (o : Oracle) (w : World) : World × Bool × Bool × Bool :=
  let cfg :=
    if w.backupConfig.isSome then
      if should_restore_from_r2 o.dateParse w.backupSync w.localSync then
        if o.cpConfigOk then
          ({ w with localConfig := w.backupConfig, localSync := w.backupSync }, true)
        else (w, false)
      else (w, false)
    else (w, false)
  let w1 := cfg.1
  let ws :=
    if w.backupWorkspaceNonempty then
      if should_restore_from_r2 o.dateParse w1.backupSync w1.localSync then
        if o.cpWorkspaceOk then ({ w1 with workspaceFromBackup := true }, true) else (w1, false)
      else (w1, false)
    else (w1, false)
  let w2 := ws.1
  let sk :=
    if w.backupSkillsNonempty then
      if should_restore_from_r2 o.dateParse w2.backupSync w2.localSync then
        if o.cpSkillsOk then ({ w2 with skillsFromBackup := true }, true) else (w2, false)
      else (w2, false)
    else (w2, false)
  (sk.1, cfg.2, ws.2, sk.2)

/-- The tail of the script after the onboarding decision: patch the
configuration, inject the setup token when supplied, and launch the
gateway as a waited-for child, propagating its exit code. -/
def finishRun (e : Env) (o : Oracle) (w : World)
    (stale rc rw rk onboarded : Bool) (auth : Option AuthChoice) : RunResult :=
  let patched := patchConfig e (w.localConfig.getD (.obj []))
  let w4 := { w with localConfig := some patched }
  let inj :=
    if envSet e.claudeSetupToken then
      let pr := injectSetupToken (e.claudeSetupToken.getD "") w4.profiles patched
      ({ w4 with profiles := pr.1, localConfig := some pr.2 }, true)
    else (w4, false)
  let spec : LaunchSpec :=
    { port := 18789, bind := "lan", verbose := true, allowUnconfigured := true,
      token := if envSet e.openclawGatewayToken then e.openclawGatewayToken else none,
      mode := .childWait }
  { outcome := .started, world := { inj.1 with listening := true },
    didRestoreConfig := rc, didRestoreWorkspace := rw, didRestoreSkills := rk,
    didOnboard := onboarded, onboardAuth := auth, didPatch := true, didInject := inj.2,
    launched := some spec, staleLockRecovered := stale, lockAfterExit := false,
    exitCode := some o.gatewayExit }

/-- One sequential invocation of `start-openclaw.sh`.  The liveness probe
comes first and returns before any lock logic; the lock acquisition of a
lone invocation always succeeds (a held artifact is treated as stale,
removed and recreated — contention needs interleavings, see `runSched`);
then restore, onboarding (iff no config file exists), patch, injection and
launch. -/
def ensureRunning (e : Env) (o : Oracle) (w : World) : RunResult :=
  if w.listening then
    { outcome := .alreadyRunning, world := w, didRestoreConfig := false,
      didRestoreWorkspace := false, didRestoreSkills := false, didOnboard := false,
      onboardAuth := none, didPatch := false, didInject := false, launched := none,
      staleLockRecovered := false, lockAfterExit := w.lockDir, exitCode := some 0 }
  else if ((restorePhase o { w with lockDir := true }).1.localConfig).isNone then
    if o.onboardOk then
      finishRun e o
        { (restorePhase o { w with lockDir := true }).1 with
            localConfig := some o.onboardOutput }
        w.lockDir (restorePhase o { w with lockDir := true }).2.1
        (restorePhase o { w with lockDir := true }).2.2.1
        (restorePhase o { w with lockDir := true }).2.2.2 true (some (authChoice e))
    else
      { outcome := .onboardFailed,
        world := { (restorePhase o { w with lockDir := true }).1 with lockDir := false },
        didRestoreConfig := (restorePhase o { w with lockDir := true }).2.1,
        didRestoreWorkspace := (restorePhase o { w with lockDir := true }).2.2.1,
        didRestoreSkills := (restorePhase o { w with lockDir := true }).2.2.2,
        didOnboard := true, onboardAuth := some (authChoice e),
        didPatch := false, didInject := false, launched := none,
        staleLockRecovered := w.lockDir, lockAfterExit := false, exitCode := some 1 }
  else
    finishRun e o (restorePhase o { w with lockDir := true }).1 w.lockDir
      (restorePhase o { w with lockDir := true }).2.1
      (restorePhase o { w with lockDir := true }).2.2.1
      (restorePhase o { w with lockDir := true }).2.2.2 false none

/-! ### Interleaved invocations (lock contention)

Two concurrent invocations of the script over the shared lock artifact and
port.  Each bash command is one atomic step: the liveness probe, the first
`mkdir`, the `rm -rf` of a presumed-stale artifact, the retry `mkdir`, and
the whole bootstrap-and-launch suffix (which touches neither the lock nor
the port until the gateway starts listening) collapsed into one launch
step. -/

/-- Program counter of one invocation. -/
inductive PC where
  | pStart
  | pTry1
  | pRm
  | pTry2
  | pLaunch
  | pDoneAlready
  | pDoneFail
  | pDoneRunning
deriving DecidableEq

/-- Shared state of two interleaved invocations: the lock artifact, the
port, how many gateway processes have been started, and both program
counters. -/
structure CState where
  lock : Bool
  listening : Bool
  started : Nat
  pcA : PC
  pcB : PC
deriving DecidableEq

/-- One atomic step of one invocation: probe (exit 0 if listening), first
`mkdir` (fails iff the artifact exists), `rm -rf`, retry `mkdir` (exit 1 on
failure), launch (start a gateway; the port becomes occupied). -/
def pcStep (pc : PC) (lock listening : Bool) (started : Nat) :
    PC × Bool × Bool × Nat :=
  match pc with
  | .pStart =>
      if listening then (.pDoneAlready, lock, listening, started)
      else (.pTry1, lock, listening, started)
  | .pTry1 =>
      if lock then (.pRm, lock, listening, started)
      else (.pLaunch, true, listening, started)
  | .pRm => (.pTry2, false, listening, started)
  | .pTry2 =>
      if lock then (.pDoneFail, lock, listening, started)
      else (.pLaunch, true, listening, started)
  | .pLaunch => (.pDoneRunning, lock, true, started + 1)
  | .pDoneAlready => (.pDoneAlready, lock, listening, started)
  | .pDoneFail => (.pDoneFail, lock, listening, started)
  | .pDoneRunning => (.pDoneRunning, lock, listening, started)

/-- Step invocation `B` (`who = true`) or `A` (`who = false`). -/
def stepOne (s : CState) (who : Bool) : CState :=
  if who then
    let r := pcStep s.pcB s.lock s.listening s.started
    { lock := r.2.1, listening := r.2.2.1, started := r.2.2.2, pcA := s.pcA, pcB := r.1 }
  else
    let r := pcStep s.pcA s.lock s.listening s.started
    { lock := r.2.1, listening := r.2.2.1, started := r.2.2.2, pcA := r.1, pcB := s.pcB }

/-- Run a schedule (the interleaving, as the list of which invocation takes
the next atomic step). -/
def runSched (s : CState) (sched : List Bool) : CState :=
  sched.foldl stepOne s

/-- The program counter of one of the two invocations. -/
def pcOf (s : CState) (who : Bool) : PC :=
  if who then s.pcB else s.pcA

/-- Remaining step budget of a program point; `0` exactly at the terminal
points.  Every step strictly decreases it, so no invocation blocks or
loops. -/
def pcRank : PC → Nat
  | .pStart => 5
  | .pTry1 => 4
  | .pRm => 3
  | .pTry2 => 2
  | .pLaunch => 1
  | .pDoneAlready => 0
  | .pDoneFail => 0
  | .pDoneRunning => 0

/-- Both invocations at the start, with a stale lock artifact present and
nothing listening (the killed-without-cleanup state). -/
def staleStart : CState :=
  { lock := true, listening := false, started := 0, pcA := .pStart, pcB := .pStart }

/-- Both invocations at the start of a fresh state: no lock artifact,
nothing listening. -/
def freshStart : CState :=
  { lock := false, listening := false, started := 0, pcA := .pStart, pcB := .pStart }

/-! ### `syncToR2` (`src/gateway/sync.ts`) -/

/-- The R2 credential bindings `syncToR2` checks. -/
structure SyncEnv where
  r2AccessKeyId : Option String := none
  r2SecretAccessKey : Option String := none
  cfAccountId : Option String := none

/-- The `SyncResult` interface. -/
structure SyncResult where
  success : Bool
  lastSync : Option String := none
  error : Option String := none
  details : Option String := none
deriving DecidableEq

/-- The container-side state `syncToR2` consults: whether `mountR2Storage`
succeeds, whether `/root/.openclaw/openclaw.json` exists (the `test -f`
probe), whether that probe's process handling threw, and what
`cat ${R2_MOUNT_PATH}/.last-sync` returns after the sync command.  The
backup store (configuration mirror, workspace, skills and the `.last-sync`
marker) is abstract, with the rsync-and-stamp command's effect on it
supplied as a function. -/
structure SyncWorld (β : Type) where
  mountOk : Bool
  configExists : Bool
  checkFailed : Bool
  stampRead : Option String
  backup : β

/-- `lastSync?.match(/^\d{4}-\d{2}-\d{2}/)`. -/
def stampMatches (s : String) : Bool :=
  match s.toList with
  | a :: b :: c :: d :: s1 :: e :: f :: s2 :: g :: h :: _ =>
      a.isDigit && b.isDigit && c.isDigit && d.isDigit && s1 = '-'
        && e.isDigit && f.isDigit && s2 = '-' && g.isDigit && h.isDigit
  | _ => false

/-- `syncToR2`: credential guard, mount, source verification, then the
rsync chain.  Returns the `SyncResult`, the backup store afterwards, and
whether the rsync command ran at all.  (The `try/catch` around the rsync
invocation itself only rewords the failure result and is not a separate
branch here; no verified property depends on it.) -/
def syncToR2 {β : Type} (e : SyncEnv) (doRsync : β → β) (w : SyncWorld β) :
    SyncResult × β × Bool :=
  if !envSet e.r2AccessKeyId || !envSet e.r2SecretAccessKey || !envSet e.cfAccountId then
    ({ success := false, error := some "R2 storage is not configured" }, w.backup, false)
  else if !w.mountOk then
    ({ success := false, error := some "Failed to mount R2 storage" }, w.backup, false)
  else if w.checkFailed then
    ({ success := false, error := some "Failed to verify source files",
       details := some "Unknown error" }, w.backup, false)
  else if !w.configExists then
    ({ success := false, error := some "Sync aborted: no config file found",
       details := some "openclaw.json not found in config directory." }, w.backup, false)
  else
    let backup1 := doRsync w.backup
    match w.stampRead.map String.trim with
    | some t =>
        if stampMatches t then ({ success := true, lastSync := some t }, backup1, true)
        else ({ success := false, error := some "Sync failed",
                details := some "No timestamp file created" }, backup1, true)
    | none =>
        ({ success := false, error := some "Sync failed",
           details := some "No timestamp file created" }, backup1, true)

/-! ### Concrete fixtures (used to instantiate theorems with hypotheses) -/

/-- An environment with every variable unset. -/
def sampleEnv : Env := {}

/-- An environment with AI-Gateway credentials and both provider keys set. -/
def gatewayEnv : Env :=
  { cloudflareAiGatewayApiKey := some "k", cfAiGatewayAccountId := some "a",
    cfAiGatewayGatewayId := some "g", anthropicApiKey := some "x",
    openaiApiKey := some "y" }

/-- A deterministic oracle: no marker parses, every copy succeeds,
onboarding succeeds and produces `{}`, the gateway exits 0. -/
def sampleOracle : Oracle :=
  { dateParse := fun _ => none, cpConfigOk := true, cpWorkspaceOk := true,
    cpSkillsOk := true, onboardOk := true, onboardOutput := .obj [],
    gatewayExit := 0 }

/-- A world with the gateway already listening. -/
def listeningWorld : World :=
  { listening := true, lockDir := true, localConfig := none, localSync := none,
    backupConfig := none, backupSync := none, backupWorkspaceNonempty := false,
    backupSkillsNonempty := false, workspaceFromBackup := false,
    skillsFromBackup := false, profiles := .obj [] }

/-- A cold world: nothing listening, no lock, no state anywhere. -/
def quietWorld : World :=
  { listening := false, lockDir := false, localConfig := none, localSync := none,
    backupConfig := none, backupSync := none, backupWorkspaceNonempty := false,
    backupSkillsNonempty := false, workspaceFromBackup := false,
    skillsFromBackup := false, profiles := .obj [] }

/-- A sync-side world over a `Nat`-valued abstract backup store. -/
def sampleSyncWorld : SyncWorld Nat :=
  { mountOk := false, configExists := false, checkFailed := false,
    stampRead := none, backup := 0 }

/-! ## Lemmas about the association-list primitives -/

theorem getK_setK_self (l : List (String × JVal)) (k : String) (v : JVal) :
    getK (setK l k v) k = some v := by
  induction l with
  | nil => simp [getK, setK]
  | cons kv rest ih =>
      obtain ⟨k', w⟩ := kv
      by_cases h : k' = k
      · simp [getK, setK, h]
      · simp [getK, setK, h, ih]

theorem getK_setK_ne (l : List (String × JVal)) (k k' : String) (v : JVal)
    (h : k' ≠ k) : getK (setK l k v) k' = getK l k' := by
  have h2 : k ≠ k' := h.symm
  induction l with
  | nil => simp [getK, setK, h2]
  | cons kv rest ih =>
      obtain ⟨k0, w⟩ := kv
      by_cases h0 : k0 = k
      · subst h0
        simp [getK, setK, h2]
      · simp [getK, setK, h0, ih]

theorem setK_setK_self (l : List (String × JVal)) (k : String) (v w : JVal) :
    setK (setK l k v) k w = setK l k w := by
  induction l with
  | nil => simp [setK]
  | cons kv rest ih =>
      obtain ⟨k0, u⟩ := kv
      by_cases h : k0 = k
      · simp [setK, h]
      · simp [setK, h, ih]

theorem setK_self (l : List (String × JVal)) (k : String) (v : JVal)
    (h : getK l k = some v) : setK l k v = l := by
  induction l with
  | nil => simp [getK] at h
  | cons kv rest ih =>
      obtain ⟨k0, u⟩ := kv
      by_cases h0 : k0 = k
      · simp [getK, h0] at h
        simp [setK, h0, h]
      · simp [getK, h0] at h
        simp [setK, h0, ih h]

theorem mem_keys_setK (l : List (String × JVal)) (k : String) (v : JVal)
    (kv : String × JVal) (h : kv ∈ setK l k v) : kv.1 = k ∨ kv ∈ l := by
  induction l with
  | nil =>
      simp [setK] at h
      simp [h]
  | cons p rest ih =>
      obtain ⟨k0, u⟩ := p
      by_cases h0 : k0 = k
      · subst h0
        simp [setK] at h
        rcases h with h | h
        · simp [h]
        · exact Or.inr (List.mem_cons_of_mem _ h)
      · simp [setK, h0] at h
        rcases h with h | h
        · exact Or.inr (by simp [h])
        · rcases ih h with h' | h'
          · exact Or.inl h'
          · exact Or.inr (List.mem_cons_of_mem _ h')

theorem getK_eq_none_of_forall (l : List (String × JVal)) (k : String)
    (h : ∀ kv ∈ l, kv.1 ≠ k) : getK l k = none := by
  induction l with
  | nil => rfl
  | cons p rest ih =>
      obtain ⟨k0, u⟩ := p
      have hk0 : k0 ≠ k := h (k0, u) (by simp)
      simp [getK, hk0]
      exact ih fun kv hkv => h kv (List.mem_cons_of_mem _ hkv)

theorem getK_filter (l : List (String × JVal)) (q : String × JVal → Bool)
    (k : String) (hq : ∀ v : JVal, q (k, v) = true) :
    getK (l.filter q) k = getK l k := by
  induction l with
  | nil => rfl
  | cons p rest ih =>
      obtain ⟨k0, u⟩ := p
      by_cases h0 : k0 = k
      · subst h0
        simp [List.filter, hq u, getK]
      · by_cases hqp : q (k0, u) = true
        · simp [List.filter, hqp, getK, h0, ih]
        · simp only [List.filter, Bool.not_eq_true] at hqp
          simp [List.filter, hqp, getK, h0, ih]

/-! ## Lemmas about the document primitives -/

theorem jGet_of_isObj_false (c : JVal) (k : String) (h : isObj c = false) :
    jGet c k = none := by
  cases c <;> simp_all [jGet, isObj]

theorem jSet_of_isObj_false (c : JVal) (k : String) (v : JVal)
    (h : isObj c = false) : jSet c k v = c := by
  cases c <;> simp_all [jSet, isObj]

theorem jUpd_of_isObj_false (c : JVal) (k : String) (f : Option JVal → JVal)
    (h : isObj c = false) : jUpd c k f = c := by
  cases c <;> simp_all [jUpd, isObj]

theorem jModify_of_isObj_false (c : JVal) (k : String) (f : JVal → JVal)
    (h : isObj c = false) : jModify c k f = c := by
  cases c <;> simp_all [jModify, jGet, isObj]

theorem jGet_jUpd_self (fields : List (String × JVal)) (k : String)
    (f : Option JVal → JVal) :
    jGet (jUpd (.obj fields) k f) k = some (f (getK fields k)) := by
  simp [jUpd, jGet, getK_setK_self]

theorem jGet_jUpd_ne (c : JVal) (k k' : String) (f : Option JVal → JVal)
    (h : k' ≠ k) : jGet (jUpd c k f) k' = jGet c k' := by
  cases c <;> simp [jUpd, jGet, getK_setK_ne _ _ _ _ h]

theorem jGet_jSet_ne (c : JVal) (k k' : String) (v : JVal)
    (h : k' ≠ k) : jGet (jSet c k v) k' = jGet c k' := by
  cases c <;> simp [jSet, jGet, getK_setK_ne _ _ _ _ h]

theorem jGet_jModify_ne (c : JVal) (k k' : String) (f : JVal → JVal)
    (h : k' ≠ k) : jGet (jModify c k f) k' = jGet c k' := by
  unfold jModify
  cases hg : jGet c k with
  | none => rfl
  | some w => simp [jGet_jSet_ne _ _ _ _ h]

theorem jSet_self (c : JVal) (k : String) (v : JVal)
    (h : jGet c k = some v) : jSet c k v = c := by
  cases c with
  | obj fields => simp [jGet] at h; simp [jSet, setK_self _ _ _ h]
  | null => rfl
  | bool b => rfl
  | num n => rfl
  | str s => rfl
  | arr a => rfl

theorem jModify_jSet (c : JVal) (k : String) (v : JVal) (f : JVal → JVal) :
    jModify (jSet c k v) k f = jSet c k (f v) := by
  cases c with
  | obj fields => simp [jSet, jModify, jGet, getK_setK_self, setK_setK_self]
  | null => simp [jSet, jModify, jGet]
  | bool b => simp [jSet, jModify, jGet]
  | num n => simp [jSet, jModify, jGet]
  | str s => simp [jSet, jModify, jGet]
  | arr a => simp [jSet, jModify, jGet]

theorem jModify_jUpd_self (c : JVal) (k : String) (f : Option JVal → JVal)
    (g : JVal → JVal) :
    jModify (jUpd c k f) k g = jUpd c k (fun v => g (f v)) := by
  cases c with
  | obj fields => simp [jUpd, jModify, jGet, jSet, getK_setK_self, setK_setK_self]
  | null => rfl
  | bool b => rfl
  | num n => rfl
  | str s => rfl
  | arr a => rfl

theorem jUpd_jUpd_self (c : JVal) (k : String) (f g : Option JVal → JVal) :
    jUpd (jUpd c k f) k g = jUpd c k (fun v => g (some (f v))) := by
  cases c with
  | obj fields => simp [jUpd, getK_setK_self, setK_setK_self]
  | null => rfl
  | bool b => rfl
  | num n => rfl
  | str s => rfl
  | arr a => rfl

theorem jModify_jModify_self (c : JVal) (k : String) (f g : JVal → JVal) :
    jModify (jModify c k f) k g = jModify c k (fun v => g (f v)) := by
  unfold jModify
  cases hg : jGet c k with
  | none => simp [hg]
  | some w =>
      cases c with
      | obj fields =>
          simp [jGet] at hg
          simp [jSet, jGet, getK_setK_self, setK_setK_self, hg]
      | null => simp [jGet] at hg
      | bool b => simp [jGet] at hg
      | num n => simp [jGet] at hg
      | str s => simp [jGet] at hg
      | arr a => simp [jGet] at hg

theorem getK_delK_self (l : List (String × JVal)) (k : String) :
    getK (delK l k) k = none := by
  induction l with
  | nil => rfl
  | cons kv rest ih =>
      obtain ⟨k0, w⟩ := kv
      by_cases h0 : k0 = k
      · simp [delK, h0, ih]
      · simp [delK, getK, h0, ih]

theorem delK_eq_filter (l : List (String × JVal)) (k : String) :
    delK l k = l.filter (fun kv => !(kv.1 = k)) := by
  induction l with
  | nil => rfl
  | cons kv rest ih =>
      obtain ⟨k0, w⟩ := kv
      by_cases h0 : k0 = k
      · simp [delK, h0, ih]
      · simp [delK, h0, ih]

theorem truthy_orEmptyObj (v : Option JVal) : truthy (some (orEmptyObj v)) = true := by
  unfold orEmptyObj
  by_cases h : truthy v = true
  · rw [if_pos h]
    cases v with
    | none => simp [truthy] at h
    | some w => exact h
  · rw [if_neg h]
    rfl

theorem orEmptyObj_of_truthy (v : JVal) (h : truthy (some v) = true) :
    orEmptyObj (some v) = v := by
  simp [orEmptyObj, h]

theorem isObj_jSet (c : JVal) (k : String) (v : JVal) :
    isObj (jSet c k v) = isObj c := by
  cases c <;> rfl

theorem isObj_jUpd (c : JVal) (k : String) (f : Option JVal → JVal) :
    isObj (jUpd c k f) = isObj c := by
  cases c <;> rfl

theorem isObj_jModify (c : JVal) (k : String) (f : JVal → JVal) :
    isObj (jModify c k f) = isObj c := by
  unfold jModify
  cases hg : jGet c k with
  | none => rfl
  | some w => exact isObj_jSet c k (f w)

theorem truthy_jSet (c : JVal) (k : String) (v : JVal) :
    truthy (some (jSet c k v)) = truthy (some c) := by
  cases c <;> rfl

theorem truthy_jModify (c : JVal) (k : String) (f : JVal → JVal) :
    truthy (some (jModify c k f)) = truthy (some c) := by
  unfold jModify
  cases hg : jGet c k with
  | none => rfl
  | some w => exact truthy_jSet c k (f w)

theorem jUpd_orEmptyObj_absorb (c : JVal) (k : String) (v : JVal)
    (h : jGet c k = some v) (ht : truthy (some v) = true) :
    jUpd c k orEmptyObj = c := by
  cases c with
  | obj fields =>
      simp only [jGet] at h
      simp [jUpd, h, orEmptyObj_of_truthy v ht, setK_self _ _ _ h]
  | null => rfl
  | bool b => rfl
  | num n => rfl
  | str s => rfl
  | arr a => rfl

theorem jModify_absorb (c : JVal) (k : String) (f : JVal → JVal) (v : JVal)
    (h : jGet c k = some v) (hf : f v = v) : jModify c k f = c := by
  unfold jModify
  rw [h]
  show jSet c k (f v) = c
  rw [hf]
  exact jSet_self c k v h

/-! ## Frame lemmas: which top-level keys each patch part touches -/

theorem jGet_staleProvidersPart (c : JVal) (k : String) (h : k ≠ "models") :
    jGet (staleProvidersPart c) k = jGet c k := by
  unfold staleProvidersPart
  split
  · split
    · exact jGet_jModify_ne _ _ _ _ h
    · rfl
  · rfl

theorem jGet_staleModelPart (c : JVal) (k : String) (h : k ≠ "agents") :
    jGet (staleModelPart c) k = jGet c k := by
  unfold staleModelPart
  split
  · exact jGet_jModify_ne _ _ _ _ h
  · rfl

theorem jGet_staleCleanup (e : Env) (c : JVal) (k : String)
    (h1 : k ≠ "models") (h2 : k ≠ "agents") :
    jGet (staleCleanup e c) k = jGet c k := by
  unfold staleCleanup
  split
  · rw [jGet_staleModelPart _ _ h2, jGet_staleProvidersPart _ _ h1]
  · rfl

theorem jGet_aiGatewayWrite (p : String) (entry : JVal) (m : String) (c : JVal)
    (k : String) (h1 : k ≠ "models") (h2 : k ≠ "agents") :
    jGet (aiGatewayWrite p entry m c) k = jGet c k := by
  unfold aiGatewayWrite
  rw [jGet_jModify_ne _ _ _ _ h2, jGet_jModify_ne _ _ _ _ h2,
    jGet_jUpd_ne _ _ _ _ h2, jGet_jModify_ne _ _ _ _ h1,
    jGet_jModify_ne _ _ _ _ h1, jGet_jUpd_ne _ _ _ _ h1]

theorem jGet_aiGatewayOverride (e : Env) (c : JVal) (k : String)
    (h1 : k ≠ "models") (h2 : k ≠ "agents") :
    jGet (aiGatewayOverride e c) k = jGet c k := by
  unfold aiGatewayOverride
  repeat' split
  all_goals first
    | rfl
    | exact jGet_aiGatewayWrite _ _ _ _ _ h1 h2

theorem isObj_staleProvidersPart (c : JVal) :
    isObj (staleProvidersPart c) = isObj c := by
  unfold staleProvidersPart
  split
  · split
    · exact isObj_jModify _ _ _
    · rfl
  · rfl

theorem isObj_staleModelPart (c : JVal) :
    isObj (staleModelPart c) = isObj c := by
  unfold staleModelPart
  split
  · exact isObj_jModify _ _ _
  · rfl

theorem isObj_staleCleanup (e : Env) (c : JVal) :
    isObj (staleCleanup e c) = isObj c := by
  unfold staleCleanup
  split
  · rw [isObj_staleModelPart, isObj_staleProvidersPart]
  · rfl

theorem isObj_aiGatewayWrite (p : String) (entry : JVal) (m : String) (c : JVal) :
    isObj (aiGatewayWrite p entry m c) = isObj c := by
  unfold aiGatewayWrite
  rw [isObj_jModify, isObj_jModify, isObj_jUpd, isObj_jModify, isObj_jModify,
    isObj_jUpd]

theorem isObj_aiGatewayOverride (e : Env) (c : JVal) :
    isObj (aiGatewayOverride e c) = isObj c := by
  unfold aiGatewayOverride
  repeat' split
  all_goals first
    | rfl
    | exact isObj_aiGatewayWrite _ _ _ _

/-! ## C1 — restore decision -/

/-- C1: `should_restore_from_r2` restores exactly when the backup marker is
strictly newer than the local marker under the spec's order (missing marker
`= -∞`, unparseable marker = epoch zero); in particular an absent backup
marker never restores, and equal markers never restore. -/
theorem restore_decision_marker_order (dp : String → Option Int)
    (r2 loc : Option String) (s : String) :
    should_restore_from_r2 dp r2 loc
        = decide (specMarkerValue dp loc < specMarkerValue dp r2)
      ∧ should_restore_from_r2 dp none loc = false
      ∧ should_restore_from_r2 dp (some s) (some s) = false := by
  refine ⟨?_, rfl, by simp [should_restore_from_r2]⟩
  cases r2 with
  | none => simp [should_restore_from_r2, specMarkerValue]
  | some a =>
      cases loc with
      | none => simp [should_restore_from_r2, specMarkerValue, WithBot.bot_lt_coe]
      | some b =>
          simp [should_restore_from_r2, specMarkerValue, WithBot.coe_lt_coe, gt_iff_lt]

/-! ## C7 — onboarding credential priority -/

/-- C7: the `AUTH_ARGS` chain prefers the AI-Gateway credentials (all three
variables), then the Anthropic key, then the OpenAI key; with everything
present the AI-Gateway credential is selected. -/
theorem onboarding_credential_priority (e : Env) :
    ((envSet e.cloudflareAiGatewayApiKey && envSet e.cfAiGatewayAccountId
        && envSet e.cfAiGatewayGatewayId) = true →
      authChoice e = .cloudflareAiGateway)
    ∧ ((envSet e.cloudflareAiGatewayApiKey && envSet e.cfAiGatewayAccountId
        && envSet e.cfAiGatewayGatewayId) = false →
        envSet e.anthropicApiKey = true → authChoice e = .anthropicKey)
    ∧ ((envSet e.cloudflareAiGatewayApiKey && envSet e.cfAiGatewayAccountId
        && envSet e.cfAiGatewayGatewayId) = false →
        envSet e.anthropicApiKey = false →
        envSet e.openaiApiKey = true → authChoice e = .openaiKey) := by
  refine ⟨fun h => ?_, fun h h1 => ?_, fun h h1 h2 => ?_⟩ <;>
    simp [authChoice, *]

/-- Witness for C7: with AI-Gateway credentials, an Anthropic key and an
OpenAI key all present, the AI-Gateway credential is selected. -/
theorem onboarding_credential_priority_witness :
    (envSet gatewayEnv.cloudflareAiGatewayApiKey && envSet gatewayEnv.cfAiGatewayAccountId
        && envSet gatewayEnv.cfAiGatewayGatewayId) = true
    ∧ envSet gatewayEnv.anthropicApiKey = true
    ∧ envSet gatewayEnv.openaiApiKey = true
    ∧ authChoice gatewayEnv = .cloudflareAiGateway :=
  ⟨by decide, by decide, by decide,
    (onboarding_credential_priority gatewayEnv).1 (by decide)⟩

/-! ## C10 — `syncToR2` guards -/

theorem syncToR2_rsync_needs_config {β : Type} (e : SyncEnv) (doRsync : β → β)
    (w : SyncWorld β) (h : (syncToR2 e doRsync w).2.2 = true) :
    w.configExists = true := by
  cases hc : w.configExists with
  | true => rfl
  | false =>
      exfalso
      unfold syncToR2 at h
      split_ifs at h
      all_goals simp_all

/-- C10: with any R2 credential missing, or the mount failing, or no local
`openclaw.json`, `syncToR2` reports `success: false` with an error and does
not touch the backup store; the rsync command runs only once the local
configuration file has been verified to exist. -/
theorem syncToR2_empty_state_guard {β : Type} (e : SyncEnv) (doRsync : β → β)
    (w : SyncWorld β) :
    ((envSet e.r2AccessKeyId = false ∨ envSet e.r2SecretAccessKey = false
        ∨ envSet e.cfAccountId = false ∨ w.mountOk = false ∨ w.configExists = false) →
      (syncToR2 e doRsync w).1.success = false
      ∧ (syncToR2 e doRsync w).1.error.isSome = true
      ∧ (syncToR2 e doRsync w).2.1 = w.backup
      ∧ (syncToR2 e doRsync w).2.2 = false)
    ∧ ((syncToR2 e doRsync w).2.2 = true → w.configExists = true) := by
  constructor
  · intro h
    unfold syncToR2
    split_ifs with h1 h2 h3 h4
    · exact ⟨rfl, rfl, rfl, rfl⟩
    · exact ⟨rfl, rfl, rfl, rfl⟩
    · exact ⟨rfl, rfl, rfl, rfl⟩
    · exact ⟨rfl, rfl, rfl, rfl⟩
    · exfalso
      rcases h with h | h | h | h | h
      · exact h1 (by simp [h])
      · exact h1 (by simp [h])
      · exact h1 (by simp [h])
      · exact h2 (by simp [h])
      · exact h4 (by simp [h])
  · exact syncToR2_rsync_needs_config e doRsync w

/-- Witness for C10: with no credentials configured and no mount, the sync
fails without touching the (here `Nat`-valued) backup store. -/
theorem syncToR2_empty_state_guard_witness :
    envSet (SyncEnv.r2AccessKeyId {}) = false
    ∧ (syncToR2 ({} : SyncEnv) (id : Nat → Nat) sampleSyncWorld).1.success = false
    ∧ (syncToR2 ({} : SyncEnv) (id : Nat → Nat) sampleSyncWorld).2.1 = sampleSyncWorld.backup
    ∧ (syncToR2 ({} : SyncEnv) (id : Nat → Nat) sampleSyncWorld).2.2 = false := by
  have h := (syncToR2_empty_state_guard ({} : SyncEnv) (id : Nat → Nat)
    sampleSyncWorld).1 (Or.inl rfl)
  exact ⟨rfl, h.1, h.2.2.1, h.2.2.2⟩

/-! ## C6 — liveness fast path -/

/-- C6: when the short-timeout probe of port 18789 succeeds, the invocation
returns "already running" before any lock logic: no lock creation or
removal, no restore, no onboarding, no patch, no injection, no launch, and
the world (local state and lock artifact) is untouched. -/
theorem liveness_fast_path (e : Env) (o : Oracle) (w : World)
    (h : w.listening = true) :
    (ensureRunning e o w).outcome = Outcome.alreadyRunning
    ∧ (ensureRunning e o w).world = w
    ∧ (ensureRunning e o w).didRestoreConfig = false
    ∧ (ensureRunning e o w).didRestoreWorkspace = false
    ∧ (ensureRunning e o w).didRestoreSkills = false
    ∧ (ensureRunning e o w).didOnboard = false
    ∧ (ensureRunning e o w).didPatch = false
    ∧ (ensureRunning e o w).didInject = false
    ∧ (ensureRunning e o w).launched = none
    ∧ (ensureRunning e o w).staleLockRecovered = false
    ∧ (ensureRunning e o w).lockAfterExit = w.lockDir := by
  simp [ensureRunning, h]

/-- Witness for C6: a listening world is returned untouched. -/
theorem liveness_fast_path_witness :
    listeningWorld.listening = true
    ∧ (ensureRunning sampleEnv sampleOracle listeningWorld).outcome = Outcome.alreadyRunning
    ∧ (ensureRunning sampleEnv sampleOracle listeningWorld).world = listeningWorld
    ∧ (ensureRunning sampleEnv sampleOracle listeningWorld).launched = none := by
  have h := liveness_fast_path sampleEnv sampleOracle listeningWorld rfl
  exact ⟨rfl, h.1, h.2.1, h.2.2.2.2.2.2.2.2.1⟩

/-! ## C5 — onboarding exactly when no configuration document exists -/

/-- C5: the onboarding step runs exactly when, after the restore step, no
local configuration document exists (and the liveness fast path was not
taken); any existing document — empty or just restored — suppresses it,
regardless of backup state. -/
theorem onboarding_iff_no_config (e : Env) (o : Oracle) (w : World) :
    (ensureRunning e o w).didOnboard
      = (!w.listening
          && ((restorePhase o { w with lockDir := true }).1.localConfig).isNone) := by
  unfold ensureRunning
  split
  case isTrue hL => simp [hL]
  case isFalse hL =>
      have hL' : w.listening = false := by simpa using hL
      simp only [hL', Bool.not_false, Bool.true_and]
      split
      case isTrue hn =>
          rw [hn]
          split <;> simp [finishRun]
      case isFalse hn =>
          have hn' := eq_false_of_ne_true hn
          rw [hn']
          simp [finishRun]

/-! ## Interleaving lemmas -/

theorem pcRank_pcStep (pc : PC) (l li : Bool) (n : Nat) :
    pcRank (pcStep pc l li n).1 ≤ pcRank pc - 1 := by
  cases pc with
  | pStart => by_cases h : li = true <;> simp [pcStep, h, pcRank]
  | pTry1 => by_cases h : l = true <;> simp [pcStep, h, pcRank]
  | pRm => simp [pcStep, pcRank]
  | pTry2 => by_cases h : l = true <;> simp [pcStep, h, pcRank]
  | pLaunch => simp [pcStep, pcRank]
  | pDoneAlready => simp [pcStep, pcRank]
  | pDoneFail => simp [pcStep, pcRank]
  | pDoneRunning => simp [pcStep, pcRank]

theorem pcRank_stepOne (s : CState) (who : Bool) :
    pcRank (pcOf (stepOne s who) who) ≤ pcRank (pcOf s who) - 1 := by
  cases who <;> simp only [stepOne, pcOf, if_true, if_false] <;>
    exact pcRank_pcStep _ _ _ _

theorem pcOf_stepOne_other (s : CState) (who : Bool) :
    pcOf (stepOne s who) (!who) = pcOf s (!who) := by
  cases who <;> rfl

theorem pcRank_runSched (s : CState) (sched : List Bool) (who : Bool) :
    pcRank (pcOf (runSched s sched) who) ≤ pcRank (pcOf s who) - sched.count who := by
  induction sched generalizing s with
  | nil => simp [runSched]
  | cons b t ih =>
      have hrun : runSched s (b :: t) = runSched (stepOne s b) t := rfl
      by_cases hb : b = who
      · subst hb
        have h1 := ih (stepOne s b)
        have h2 := pcRank_stepOne s b
        have hc : (b :: t).count b = t.count b + 1 := List.count_cons_self b t
        rw [hrun, hc]
        omega
      · have hwho : who = !b := by
          cases b <;> cases who <;> simp_all

        have h1 := ih (stepOne s b)
        have h2 : pcOf (stepOne s b) who = pcOf s who := by
          rw [hwho]
          exact pcOf_stepOne_other s b
        have hc : (b :: t).count who = t.count who :=
          List.count_cons_of_ne (fun h => hb h.symm) t
        rw [hrun, hc]
        rw [h2] at h1
        exact h1

theorem pcRank_runSched_zero (s : CState) (sched : List Bool) (who : Bool)
    (h : pcRank (pcOf s who) ≤ sched.count who) :
    pcRank (pcOf (runSched s sched) who) = 0 := by
  have h1 := pcRank_runSched s sched who
  omega

/-! ## C2 — stale-lock recovery (amended) -/

/-- C2 (amended): an invocation that finds the lock artifact present (and
no listener) removes it and retries the atomic creation exactly once — the
retry immediately fails the run when it finds the artifact present, and
acquires-and-proceeds otherwise; every invocation terminates within five of
its own atomic steps under any interleaving (no blocking or looping); and a
second invocation fails exactly in the interleaving where its retry meets
the artifact recreated by the first — the exhibited schedule ends with the
second invocation in the failed state while the first proceeds alone. -/
theorem stale_lock_retry_contract :
    (∀ s : CState, pcOf s false = .pTry1 → s.lock = true →
      pcOf (stepOne s false) false = .pRm ∧ (stepOne s false).lock = true)
    ∧ (∀ s : CState, pcOf s false = .pRm →
      pcOf (stepOne s false) false = .pTry2 ∧ (stepOne s false).lock = false)
    ∧ (∀ s : CState, pcOf s false = .pTry2 → s.lock = true →
      pcOf (stepOne s false) false = .pDoneFail)
    ∧ (∀ s : CState, pcOf s false = .pTry2 → s.lock = false →
      pcOf (stepOne s false) false = .pLaunch ∧ (stepOne s false).lock = true)
    ∧ (∀ (s : CState) (sched : List Bool) (who : Bool),
        pcRank (pcOf s who) ≤ sched.count who →
        pcRank (pcOf (runSched s sched) who) = 0)
    ∧ (pcOf (runSched staleStart
          [false, true, false, true, false, true, false, true, false]) true = .pDoneFail
        ∧ pcOf (runSched staleStart
          [false, true, false, true, false, true, false, true, false]) false = .pDoneRunning
        ∧ (runSched staleStart
          [false, true, false, true, false, true, false, true, false]).started = 1) := by
  refine ⟨?_, ?_, ?_, ?_, pcRank_runSched_zero, by decide⟩
  · intro s h1 h2
    simp [pcOf] at h1
    simp [stepOne, pcStep, pcOf, h1, h2]
  · intro s h1
    simp [pcOf] at h1
    simp [stepOne, pcStep, pcOf, h1]
  · intro s h1 h2
    simp [pcOf] at h1
    simp [stepOne, pcStep, pcOf, h1, h2]
  · intro s h1 h2
    simp [pcOf] at h1
    simp [stepOne, pcStep, pcOf, h1, h2]

/-- Witness for C2: the retry of an invocation that meets a present
artifact fails the run. -/
theorem stale_lock_retry_contract_witness :
    pcOf ({ lock := true, listening := false, started := 0,
            pcA := .pTry2, pcB := .pStart } : CState) false = .pTry2
    ∧ ({ lock := true, listening := false, started := 0,
         pcA := .pTry2, pcB := .pStart } : CState).lock = true
    ∧ pcOf (stepOne ({ lock := true, listening := false, started := 0,
                       pcA := .pTry2, pcB := .pStart } : CState) false) false
        = .pDoneFail :=
  ⟨rfl, rfl, stale_lock_retry_contract.2.2.1 _ rfl rfl⟩

/-- Counterexample to C2 as stated: a second invocation that finds the
artifact already removed-and-recreated by the first (artifact present, port
not listening — the state after the prefix) does not fail: it treats the
fresh artifact as stale, removes it, recreates it and launches as well. -/
theorem stale_lock_second_invocation_launches :
    (runSched staleStart [false, false, false, false]).lock = true
    ∧ (runSched staleStart [false, false, false, false]).listening = false
    ∧ pcOf (runSched staleStart [false, false, false, false]) true = .pStart
    ∧ pcOf (runSched staleStart
        ([false, false, false, false] ++ [true, true, true, true, false, true]))
        true = .pDoneRunning
    ∧ (runSched staleStart
        ([false, false, false, false] ++ [true, true, true, true, false, true])).started
        = 2 := by
  decide

/-! ## C3 — at-most-one-running -/

/-- C3: from a fresh state (no lock artifact, nothing listening), the
schedule in which the second invocation's first `mkdir` fails against the
first invocation's fresh lock — whereupon it removes that lock as "stale",
recreates it and proceeds — ends with two gateway processes started, not
one. -/
theorem fresh_state_double_launch :
    (runSched freshStart [false, true, false, true, true, true, false, true]).started = 2
    ∧ pcOf (runSched freshStart
        [false, true, false, true, true, true, false, true]) false = .pDoneRunning
    ∧ pcOf (runSched freshStart
        [false, true, false, true, true, true, false, true]) true = .pDoneRunning := by
  decide

/-! ## C8 — launch step -/

/-- Counterexample to C8 as stated: the gateway is started as a waited-for
child process, not by replacing the script's execution context (the code
keeps bash alive so the EXIT trap can clean up the lock). -/
theorem launch_mode_not_exec :
    ((ensureRunning sampleEnv sampleOracle quietWorld).launched.map LaunchSpec.mode)
      = some LaunchMode.childWait
    ∧ LaunchMode.childWait ≠ LaunchMode.execReplace :=
  ⟨rfl, by decide⟩

/-- C8 (amended): whenever the gateway is launched it is started with
`--port 18789 --bind lan --verbose --allow-unconfigured`, with `--token`
exactly when `OPENCLAW_GATEWAY_TOKEN` is set; the script waits for the
child and exits with the gateway's own exit code (propagation, not
replacement of the execution context); and on every exit path taken after
lock acquisition the EXIT trap releases the lock. -/
theorem launch_contract (e : Env) (o : Oracle) (w : World) :
    (∀ sp : LaunchSpec, (ensureRunning e o w).launched = some sp →
      sp.port = 18789 ∧ sp.bind = "lan" ∧ sp.verbose = true
      ∧ sp.allowUnconfigured = true ∧ sp.mode = .childWait
      ∧ (envSet e.openclawGatewayToken = true → sp.token = e.openclawGatewayToken)
      ∧ (envSet e.openclawGatewayToken = false → sp.token = none)
      ∧ (ensureRunning e o w).exitCode = some o.gatewayExit)
    ∧ ((ensureRunning e o w).outcome ≠ .alreadyRunning →
        (ensureRunning e o w).lockAfterExit = false) := by
  constructor
  · intro sp hsp
    unfold ensureRunning at hsp ⊢
    split at hsp
    case isTrue hL => simp at hsp
    case isFalse hL =>
        rw [if_neg hL]
        split at hsp
        case isTrue hn =>
            rw [if_pos hn]
            split at hsp
            case isTrue ho =>
                rw [if_pos ho]
                simp only [finishRun] at hsp ⊢
                injection hsp with hsp'
                subst hsp'
                refine ⟨rfl, rfl, rfl, rfl, rfl, fun h => ?_, fun h => ?_, ?_⟩
                · simp [h]
                · simp [h]
                · trivial
            case isFalse ho => simp at hsp
        case isFalse hn =>
            rw [if_neg hn]
            simp only [finishRun] at hsp ⊢
            injection hsp with hsp'
            subst hsp'
            refine ⟨rfl, rfl, rfl, rfl, rfl, fun h => ?_, fun h => ?_, ?_⟩
            · simp [h]
            · simp [h]
            · trivial
  · intro hout
    unfold ensureRunning at hout ⊢
    split at hout
    case isTrue hL => simp at hout
    case isFalse hL =>
        rw [if_neg hL]
        split at hout
        case isTrue hn =>
            rw [if_pos hn]
            split at hout
            case isTrue ho =>
                rw [if_pos ho]
                simp [finishRun]
            case isFalse ho => rw [if_neg ho]
        case isFalse hn =>
            rw [if_neg hn]
            simp [finishRun]

/-! ## C9 — setup-token injection -/

theorem jGetPath_singleton (v : JVal) (k : String) : jGetPath v [k] = jGet v k := by
  cases hg : jGet v k <;> simp [jGetPath, hg]

theorem jGetPath_pair (v w : JVal) (k1 k2 : String) (h : jGet v k1 = some w) :
    jGetPath v [k1, k2] = jGet w k2 := by
  simp [jGetPath, h]
  exact jGetPath_singleton w k2

theorem jGetPath_triple (v w : JVal) (k1 k2 k3 : String) (h : jGet v k1 = some w) :
    jGetPath v [k1, k2, k3] = jGetPath w [k2, k3] := by
  simp [jGetPath, h]

/-- A member that is an object-or-falsy becomes, after `x || {}`, an object
whose reads agree with chased reads of the original document. -/
theorem memberObjShape (pf : List (String × JVal)) (k : String)
    (h : objOrFalsy (getK pf k) = true) :
    ∃ l, orEmptyObj (getK pf k) = JVal.obj l
      ∧ ∀ x, getK l x = jGetPath (JVal.obj pf) [k, x] := by
  cases hg : getK pf k with
  | none =>
      refine ⟨[], by simp [orEmptyObj, truthy], fun x => ?_⟩
      simp [jGetPath, jGet, hg, getK]
  | some w =>
      cases w with
      | obj wf =>
          refine ⟨wf, by simp [orEmptyObj, truthy], fun x => ?_⟩
          rw [jGetPath_pair (JVal.obj pf) (JVal.obj wf) k x (by simp [jGet, hg])]
          rfl
      | null =>
          refine ⟨[], by simp [orEmptyObj, truthy], fun x => ?_⟩
          rw [jGetPath_pair (JVal.obj pf) JVal.null k x (by simp [jGet, hg])]
          simp [jGet, getK]
      | bool b =>
          have hb : b = false := by simpa [objOrFalsy, hg, truthy] using h
          subst hb
          refine ⟨[], by simp [orEmptyObj, truthy], fun x => ?_⟩
          rw [jGetPath_pair (JVal.obj pf) (JVal.bool false) k x (by simp [jGet, hg])]
          simp [jGet, getK]
      | num n =>
          have hn : n = 0 := by simpa [objOrFalsy, hg, truthy] using h
          subst hn
          refine ⟨[], by simp [orEmptyObj, truthy], fun x => ?_⟩
          rw [jGetPath_pair (JVal.obj pf) (JVal.num 0) k x (by simp [jGet, hg])]
          simp [jGet, getK]
      | str s =>
          have hs : s = "" := by simpa [objOrFalsy, hg, truthy] using h
          subst hs
          refine ⟨[], by simp [orEmptyObj, truthy], fun x => ?_⟩
          rw [jGetPath_pair (JVal.obj pf) (JVal.str "") k x (by simp [jGet, hg])]
          simp [jGet, getK]
      | arr a => simp [objOrFalsy, hg, truthy] at h

theorem jGetPath_vector3 (v : JVal) (k1 k2 k3 : String) :
    jGetPath v [k1, k2, k3]
      = match jGetPath v [k1, k2] with
        | some u => jGet u k3
        | none => none := by
  cases h1 : jGet v k1 with
  | none => simp [jGetPath, h1]
  | some w =>
      cases h2 : jGet w k2 with
      | none => simp [jGetPath, h1, h2]
      | some u =>
          simp only [jGetPath, h1, h2]
          cases jGet u k3 <;> rfl

/-- Like `memberObjShape`, but also carrying the shape of a nested member
(for `config.auth.profiles` and `config.models.providers`). -/
theorem memberObjShapeAt (cf : List (String × JVal)) (k1 k2 : String)
    (h1 : objOrFalsy (getK cf k1) = true)
    (h2 : objOrFalsyAt (JVal.obj cf) k1 k2 = true) :
    ∃ af, orEmptyObj (getK cf k1) = JVal.obj af
      ∧ objOrFalsy (getK af k2) = true := by
  cases hg : getK cf k1 with
  | none =>
      exact ⟨[], by simp [orEmptyObj, truthy], by simp [getK, objOrFalsy, truthy]⟩
  | some w =>
      cases w with
      | obj wf =>
          refine ⟨wf, by simp [orEmptyObj, truthy], ?_⟩
          unfold objOrFalsyAt at h2
          simp only [jGet, hg] at h2
          exact h2
      | null =>
          exact ⟨[], by simp [orEmptyObj, truthy], by simp [getK, objOrFalsy, truthy]⟩
      | bool b =>
          have hb : b = false := by simpa [objOrFalsy, hg, truthy] using h1
          subst hb
          exact ⟨[], by simp [orEmptyObj, truthy], by simp [getK, objOrFalsy, truthy]⟩
      | num n =>
          have hn : n = 0 := by simpa [objOrFalsy, hg, truthy] using h1
          subst hn
          exact ⟨[], by simp [orEmptyObj, truthy], by simp [getK, objOrFalsy, truthy]⟩
      | str s =>
          have hs : s = "" := by simpa [objOrFalsy, hg, truthy] using h1
          subst hs
          exact ⟨[], by simp [orEmptyObj, truthy], by simp [getK, objOrFalsy, truthy]⟩
      | arr a => simp [objOrFalsy, hg, truthy] at h1

/-- C9: with `CLAUDE_SETUP_TOKEN` supplied, on a well-shaped credential
store with no token persisted under `anthropic:default`, the injection
writes the trimmed token into the store, references the profile in the
configuration and ensures an Anthropic provider entry; with a token already
persisted it returns both documents unchanged. -/
theorem setup_token_never_overwrites (tok : String) (profiles0 config0 : JVal)
    (_hTok : envSet (some tok) = true) :
    (tokenPersisted profiles0 = false →
      wfProfilesStore profiles0 = true →
      wfConfigStore config0 = true →
      jGetPath (injectSetupToken tok profiles0 config0).1
          ["profiles", setupProfileId, "token"] = some (.str tok.trim)
      ∧ jGetPath (injectSetupToken tok profiles0 config0).2
          ["auth", "profiles", setupProfileId]
          = some (.obj [("provider", .str "anthropic"), ("mode", .str "token")])
      ∧ truthy (jGetPath (injectSetupToken tok profiles0 config0).2
          ["models", "providers", "anthropic"]) = true)
    ∧ (tokenPersisted profiles0 = true →
      injectSetupToken tok profiles0 config0 = (profiles0, config0)) := by
  constructor
  · intro hnp hwp hwc
    unfold wfProfilesStore at hwp
    rw [Bool.and_eq_true] at hwp
    obtain ⟨hpobj, hpOF⟩ := hwp
    cases profiles0 with
    | null => simp [isObj] at hpobj
    | bool b => simp [isObj] at hpobj
    | num n => simp [isObj] at hpobj
    | str s => simp [isObj] at hpobj
    | arr a => simp [isObj] at hpobj
    | obj pf =>
        have hpOF' : objOrFalsy (getK pf "profiles") = true := by
          simpa [jGet] using hpOF
        obtain ⟨pfl, hP0, hPread⟩ := memberObjShape pf "profiles" hpOF'
        have hp1 : jUpd (JVal.obj pf) "profiles" orEmptyObj
            = JVal.obj (setK pf "profiles" (JVal.obj pfl)) := by
          simp [jUpd, hP0]
        have hread1 : jGetPath (jUpd (JVal.obj pf) "profiles" orEmptyObj)
            ["profiles", setupProfileId]
            = jGetPath (JVal.obj pf) ["profiles", setupProfileId] := by
          rw [hp1, jGetPath_pair _ (JVal.obj pfl) _ _ (by simp [jGet, getK_setK_self])]
          exact hPread setupProfileId
        have hread2 : jGetPath (jUpd (JVal.obj pf) "profiles" orEmptyObj)
            ["profiles", setupProfileId, "token"]
            = jGetPath (JVal.obj pf) ["profiles", setupProfileId, "token"] := by
          rw [jGetPath_vector3, jGetPath_vector3, hread1]
        have hcond : (!truthy (jGetPath (jUpd (JVal.obj pf) "profiles" orEmptyObj)
              ["profiles", setupProfileId])
            || !truthy (jGetPath (jUpd (JVal.obj pf) "profiles" orEmptyObj)
              ["profiles", setupProfileId, "token"])) = true := by
          rw [hread1, hread2]
          unfold tokenPersisted at hnp
          cases hA : truthy (jGetPath (JVal.obj pf) ["profiles", setupProfileId]) <;>
            cases hB : truthy (jGetPath (JVal.obj pf) ["profiles", setupProfileId, "token"]) <;>
            simp_all
        have hres : injectSetupToken tok (JVal.obj pf) config0
            = (injectProfilesWrite tok (jUpd (JVal.obj pf) "profiles" orEmptyObj),
               injectConfigModels (injectConfigAuth config0)) := by
          unfold injectSetupToken
          rw [if_pos hcond]
        -- the credential-store side
        have hPW : injectProfilesWrite tok (jUpd (JVal.obj pf) "profiles" orEmptyObj)
            = JVal.obj (setK pf "profiles" (JVal.obj (setK pfl setupProfileId
                (JVal.obj [("type", .str "token"), ("provider", .str "anthropic"),
                  ("token", .str tok.trim)])))) := by
          rw [hp1]
          unfold injectProfilesWrite
          simp [jModify, jGet, jSet, getK_setK_self, setK_setK_self]
        -- the configuration side, shared shape analysis
        unfold wfConfigStore at hwc
        simp only [Bool.and_eq_true] at hwc
        obtain ⟨⟨⟨⟨hcobj, hcAuthOF⟩, hcModelsOF⟩, hcAPOF⟩, hcMPOF⟩ := hwc
        cases config0 with
        | null => simp [isObj] at hcobj
        | bool b => simp [isObj] at hcobj
        | num n => simp [isObj] at hcobj
        | str s => simp [isObj] at hcobj
        | arr a => simp [isObj] at hcobj
        | obj cf =>
        have hcAuthOF' : objOrFalsy (getK cf "auth") = true := by
          simpa [jGet] using hcAuthOF
        obtain ⟨af, hA0, hafOF⟩ := memberObjShapeAt cf "auth" "profiles" hcAuthOF' hcAPOF
        obtain ⟨pl, hP1, -⟩ := memberObjShape af "profiles" hafOF
        have hCA : injectConfigAuth (JVal.obj cf)
            = JVal.obj (setK cf "auth" (JVal.obj (setK af "profiles"
                (JVal.obj (setK pl setupProfileId
                  (JVal.obj [("provider", .str "anthropic"), ("mode", .str "token")])))))) := by
          unfold injectConfigAuth
          simp [jUpd, jModify, jGet, jSet, hA0, hP1, getK_setK_self, setK_setK_self]
        have hMne : ("models" : String) ≠ "auth" := by decide
        have hcModelsOF2 : objOrFalsy (getK (setK cf "auth" (JVal.obj (setK af "profiles"
            (JVal.obj (setK pl setupProfileId
              (JVal.obj [("provider", .str "anthropic"), ("mode", .str "token")]))))))
            "models") = true := by
          rw [getK_setK_ne _ _ _ _ hMne]
          simpa [jGet] using hcModelsOF
        have hcMPOF2 : objOrFalsyAt (JVal.obj (setK cf "auth" (JVal.obj (setK af "profiles"
            (JVal.obj (setK pl setupProfileId
              (JVal.obj [("provider", .str "anthropic"), ("mode", .str "token")])))))))
            "models" "providers" = true := by
          unfold objOrFalsyAt at hcMPOF ⊢
          simpa [jGet, getK_setK_ne _ _ _ _ hMne] using hcMPOF
        obtain ⟨mf, hM0, hmfOF⟩ := memberObjShapeAt _ "models" "providers" hcModelsOF2 hcMPOF2
        obtain ⟨prl, hPR0, -⟩ := memberObjShape mf "providers" hmfOF
        have hEP : ensureProviders (injectConfigAuth (JVal.obj cf))
            = JVal.obj (setK (setK cf "auth" (JVal.obj (setK af "profiles"
                (JVal.obj (setK pl setupProfileId
                  (JVal.obj [("provider", .str "anthropic"), ("mode", .str "token")]))))))
                "models" (JVal.obj (setK mf "providers" (JVal.obj prl)))) := by
          rw [hCA]
          unfold ensureProviders
          simp [jUpd, jModify, jGet, jSet, hM0, hPR0, getK_setK_self, setK_setK_self]
        have hAne : ("auth" : String) ≠ "models" := by decide
        have hAuthRead : ∀ mv : JVal,
            jGetPath (JVal.obj (setK (setK cf "auth" (JVal.obj (setK af "profiles"
                (JVal.obj (setK pl setupProfileId
                  (JVal.obj [("provider", .str "anthropic"), ("mode", .str "token")]))))))
                "models" mv)) ["auth", "profiles", setupProfileId]
              = some (.obj [("provider", .str "anthropic"), ("mode", .str "token")]) := by
          intro mv
          rw [jGetPath_triple _ (JVal.obj (setK af "profiles"
              (JVal.obj (setK pl setupProfileId
                (JVal.obj [("provider", .str "anthropic"), ("mode", .str "token")]))))) _ _ _
            (by simp [jGet, getK_setK_ne _ _ _ _ hAne, getK_setK_self])]
          rw [jGetPath_pair _ (JVal.obj (setK pl setupProfileId
              (JVal.obj [("provider", .str "anthropic"), ("mode", .str "token")]))) _ _
            (by simp [jGet, getK_setK_self])]
          simp [jGet, getK_setK_self]
        have hBoth : (injectConfigModels (injectConfigAuth (JVal.obj cf))
              = JVal.obj (setK (setK cf "auth" (JVal.obj (setK af "profiles"
                  (JVal.obj (setK pl setupProfileId
                    (JVal.obj [("provider", .str "anthropic"), ("mode", .str "token")]))))))
                  "models" (JVal.obj (setK mf "providers" (JVal.obj prl))))
              ∨ injectConfigModels (injectConfigAuth (JVal.obj cf))
              = JVal.obj (setK (setK cf "auth" (JVal.obj (setK af "profiles"
                  (JVal.obj (setK pl setupProfileId
                    (JVal.obj [("provider", .str "anthropic"), ("mode", .str "token")]))))))
                  "models" (JVal.obj (setK mf "providers"
                    (JVal.obj (setK prl "anthropic"
                      (JVal.obj [("api", .str "anthropic-messages")])))))))
            ∧ truthy (jGetPath (injectConfigModels (injectConfigAuth (JVal.obj cf)))
                ["models", "providers", "anthropic"]) = true := by
          unfold injectConfigModels
          rw [hEP]
          split
          case isTrue hguard =>
            constructor
            · right
              simp [jModify, jGet, jSet, getK_setK_self, setK_setK_self]
            · simp only [jModify, jGet, jSet, getK_setK_self, setK_setK_self]
              rw [jGetPath_triple _ (JVal.obj (setK mf "providers"
                  (JVal.obj (setK prl "anthropic"
                    (JVal.obj [("api", .str "anthropic-messages")]))))) _ _ _
                (by simp [jGet, getK_setK_self])]
              rw [jGetPath_pair _ (JVal.obj (setK prl "anthropic"
                  (JVal.obj [("api", .str "anthropic-messages")]))) _ _
                (by simp [jGet, getK_setK_self])]
              simp [jGet, getK_setK_self, truthy]
          case isFalse hguard =>
            exact ⟨Or.inl rfl, by simpa using hguard⟩
        obtain ⟨hICM, hProvRead⟩ := hBoth
        refine ⟨?_, ?_, ?_⟩
        · rw [hres]
          show jGetPath (injectProfilesWrite tok (jUpd (JVal.obj pf) "profiles" orEmptyObj))
            ["profiles", setupProfileId, "token"] = some (.str tok.trim)
          rw [hPW, jGetPath_triple _ (JVal.obj (setK pfl setupProfileId
              (JVal.obj [("type", .str "token"), ("provider", .str "anthropic"),
                ("token", .str tok.trim)]))) _ _ _
            (by simp [jGet, getK_setK_self])]
          rw [jGetPath_pair _ (JVal.obj [("type", JVal.str "token"),
            ("provider", JVal.str "anthropic"), ("token", JVal.str tok.trim)]) _ _
            (by simp [jGet, getK_setK_self])]
          simp [jGet, getK]
        · rw [hres]
          show jGetPath (injectConfigModels (injectConfigAuth (JVal.obj cf)))
            ["auth", "profiles", setupProfileId]
            = some (.obj [("provider", .str "anthropic"), ("mode", .str "token")])
          rcases hICM with hcase | hcase <;> rw [hcase] <;> exact hAuthRead _
        · rw [hres]
          exact hProvRead
  · intro hp
    unfold tokenPersisted at hp
    rw [Bool.and_eq_true] at hp
    obtain ⟨h1, h2⟩ := hp
    cases profiles0 with
    | null => simp [jGetPath, jGet, truthy] at h1
    | bool b => simp [jGetPath, jGet, truthy] at h1
    | num n => simp [jGetPath, jGet, truthy] at h1
    | str s => simp [jGetPath, jGet, truthy] at h1
    | arr a => simp [jGetPath, jGet, truthy] at h1
    | obj pf =>
        cases hg : getK pf "profiles" with
        | none => simp [jGetPath, jGet, hg, truthy] at h1
        | some w =>
            have hpath : jGetPath (JVal.obj pf) ["profiles", setupProfileId]
                = jGet w setupProfileId :=
              jGetPath_pair _ w _ _ (by simp [jGet, hg])
            have h1' := h1
            rw [hpath] at h1'
            cases w with
            | null => simp [jGet, truthy] at h1'
            | bool b => simp [jGet, truthy] at h1'
            | num n => simp [jGet, truthy] at h1'
            | str s => simp [jGet, truthy] at h1'
            | arr a => simp [jGet, truthy] at h1'
            | obj wf =>
                have hup : jUpd (JVal.obj pf) "profiles" orEmptyObj = JVal.obj pf :=
                  jUpd_orEmptyObj_absorb _ _ (JVal.obj wf) (by simp [jGet, hg]) rfl
                unfold injectSetupToken
                rw [hup, if_neg (by simp [h1, h2])]

/-- Witness for C9: on an empty store and empty configuration (no token
persisted), the trimmed token is written and the stubs registered. -/
theorem setup_token_never_overwrites_witness :
    envSet (some "k") = true
    ∧ tokenPersisted (JVal.obj []) = false
    ∧ wfProfilesStore (JVal.obj []) = true
    ∧ wfConfigStore (JVal.obj []) = true
    ∧ jGetPath (injectSetupToken "k" (JVal.obj []) (JVal.obj [])).1
        ["profiles", setupProfileId, "token"] = some (JVal.str ("k".trim))
    ∧ truthy (jGetPath (injectSetupToken "k" (JVal.obj []) (JVal.obj [])).2
        ["models", "providers", "anthropic"]) = true := by
  have h := (setup_token_never_overwrites "k" (JVal.obj []) (JVal.obj [])
    (by decide)).1 (by decide) (by decide) (by decide)
  exact ⟨by decide, by decide, by decide, by decide, h.1, h.2.2⟩

/-! ## C4 — idempotence of the patch step

The proof computes the patched document once, then absorbs every statement
of a second run: each write either rewrites a key to the value it already
holds (`setK_self` / `jSet_self`) or is skipped because its guard reads the
normalised state. -/

theorem gwBase_of_isObj_false (g : JVal) (h : isObj g = false) : gwBase g = g := by
  unfold gwBase
  rw [jSet_of_isObj_false _ _ _ h, jSet_of_isObj_false _ _ _ h,
    jSet_of_isObj_false _ _ _ h]

theorem gwAuth_of_isObj_false (e : Env) (g : JVal) (h : isObj g = false) :
    gwAuth e g = g := by
  unfold gwAuth
  split
  · rw [jSet_of_isObj_false _ _ _ h, jModify_of_isObj_false _ _ _ h]
  · rfl

theorem gwDev_of_isObj_false (e : Env) (g : JVal) (h : isObj g = false) :
    gwDev e g = g := by
  unfold gwDev
  split
  · rw [jSet_of_isObj_false _ _ _ h, jModify_of_isObj_false _ _ _ h]
  · rfl

theorem gwHttp_of_isObj_false (g : JVal) (h : isObj g = false) : gwHttp g = g := by
  unfold gwHttp
  rw [jSet_of_isObj_false _ _ _ h, jModify_of_isObj_false _ _ _ h,
    jModify_of_isObj_false _ _ _ h, jModify_of_isObj_false _ _ _ h]

theorem gwSettings_of_isObj_false (e : Env) (g : JVal) (h : isObj g = false) :
    gwSettings e g = g := by
  unfold gwSettings
  rw [gwBase_of_isObj_false g h, gwAuth_of_isObj_false e g h,
    gwDev_of_isObj_false e g h, gwHttp_of_isObj_false g h]

theorem isObj_gwBase (g : JVal) : isObj (gwBase g) = isObj g := by
  unfold gwBase
  rw [isObj_jSet, isObj_jSet, isObj_jSet]

theorem isObj_gwAuth (e : Env) (g : JVal) : isObj (gwAuth e g) = isObj g := by
  unfold gwAuth
  split
  · rw [isObj_jModify, isObj_jSet]
  · rfl

theorem isObj_gwDev (e : Env) (g : JVal) : isObj (gwDev e g) = isObj g := by
  unfold gwDev
  split
  · rw [isObj_jModify, isObj_jSet]
  · rfl

theorem isObj_gwHttp (g : JVal) : isObj (gwHttp g) = isObj g := by
  unfold gwHttp
  rw [isObj_jModify, isObj_jModify, isObj_jModify, isObj_jSet]

theorem isObj_gwSettings (e : Env) (g : JVal) : isObj (gwSettings e g) = isObj g := by
  unfold gwSettings
  rw [isObj_gwHttp, isObj_gwDev, isObj_gwAuth, isObj_gwBase]

theorem truthy_gwSettings (e : Env) (g : JVal) :
    truthy (some (gwSettings e g)) = truthy (some g) := by
  cases hobj : isObj g with
  | false => rw [gwSettings_of_isObj_false e g hobj]
  | true =>
      cases g with
      | obj l =>
          have h1 : isObj (gwSettings e (JVal.obj l)) = true := by
            rw [isObj_gwSettings]; rfl
          cases hg : gwSettings e (JVal.obj l) with
          | obj l2 => rfl
          | null => rw [hg] at h1; simp [isObj] at h1
          | bool b => rw [hg] at h1; simp [isObj] at h1
          | num n => rw [hg] at h1; simp [isObj] at h1
          | str s => rw [hg] at h1; simp [isObj] at h1
          | arr a => rw [hg] at h1; simp [isObj] at h1
      | null => simp [isObj] at hobj
      | bool b => simp [isObj] at hobj
      | num n => simp [isObj] at hobj
      | str s => simp [isObj] at hobj
      | arr a => simp [isObj] at hobj

theorem telegramStep_of_isObj_false (e : Env) (ch : JVal) (h : isObj ch = false) :
    telegramStep e ch = ch := by
  unfold telegramStep
  split
  · exact jSet_of_isObj_false _ _ _ h
  · rfl

theorem discordStep_of_isObj_false (e : Env) (ch : JVal) (h : isObj ch = false) :
    discordStep e ch = ch := by
  unfold discordStep
  split
  · exact jSet_of_isObj_false _ _ _ h
  · rfl

theorem slackStep_of_isObj_false (e : Env) (ch : JVal) (h : isObj ch = false) :
    slackStep e ch = ch := by
  unfold slackStep
  split
  · exact jSet_of_isObj_false _ _ _ h
  · rfl

theorem channelsSettings_of_isObj_false (e : Env) (ch : JVal) (h : isObj ch = false) :
    channelsSettings e ch = ch := by
  unfold channelsSettings
  rw [telegramStep_of_isObj_false e ch h, discordStep_of_isObj_false e ch h,
    slackStep_of_isObj_false e ch h]

theorem isObj_channelsSettings (e : Env) (ch : JVal) :
    isObj (channelsSettings e ch) = isObj ch := by
  unfold channelsSettings slackStep discordStep telegramStep
  split
  all_goals split
  all_goals split
  all_goals simp [isObj_jSet]

theorem truthy_channelsSettings (e : Env) (ch : JVal) :
    truthy (some (channelsSettings e ch)) = truthy (some ch) := by
  unfold channelsSettings slackStep discordStep telegramStep
  split
  all_goals split
  all_goals split
  all_goals simp [truthy_jSet]

theorem staleProvidersPart_of_isObj_false (c : JVal) (h : isObj c = false) :
    staleProvidersPart c = c := by
  unfold staleProvidersPart
  rw [jGet_of_isObj_false _ _ h]
  simp [truthy]

theorem staleModelPart_of_isObj_false (c : JVal) (h : isObj c = false) :
    staleModelPart c = c := by
  unfold staleModelPart
  rw [show jGetPath c ["agents", "defaults", "model", "primary"] = none by
    simp [jGetPath, jGet_of_isObj_false _ _ h]]
  rfl

theorem staleCleanup_of_isObj_false (e : Env) (c : JVal) (h : isObj c = false) :
    staleCleanup e c = c := by
  unfold staleCleanup
  split
  · rw [staleProvidersPart_of_isObj_false c h, staleModelPart_of_isObj_false c h]
  · rfl

theorem aiGatewayWrite_of_isObj_false (p : String) (entry : JVal) (m : String)
    (c : JVal) (h : isObj c = false) : aiGatewayWrite p entry m c = c := by
  unfold aiGatewayWrite
  rw [jUpd_of_isObj_false _ _ _ h, jModify_of_isObj_false _ _ _ h,
    jModify_of_isObj_false _ _ _ h, jUpd_of_isObj_false _ _ _ h,
    jModify_of_isObj_false _ _ _ h, jModify_of_isObj_false _ _ _ h]

theorem aiGatewayOverride_of_isObj_false (e : Env) (c : JVal) (h : isObj c = false) :
    aiGatewayOverride e c = c := by
  unfold aiGatewayOverride
  repeat' split
  all_goals first
    | rfl
    | exact aiGatewayWrite_of_isObj_false _ _ _ _ h

theorem patchConfig_of_isObj_false (e : Env) (c : JVal) (h : isObj c = false) :
    patchConfig e c = c := by
  unfold patchConfig
  rw [jUpd_of_isObj_false _ _ _ h, jUpd_of_isObj_false _ _ _ h,
    jModify_of_isObj_false _ _ _ h, staleCleanup_of_isObj_false e c h,
    aiGatewayOverride_of_isObj_false e c h, jModify_of_isObj_false _ _ _ h]

theorem delK_of_forall_ne (l : List (String × JVal)) (k : String)
    (h : ∀ kv ∈ l, kv.1 ≠ k) : delK l k = l := by
  induction l with
  | nil => rfl
  | cons kv rest ih =>
      obtain ⟨k0, v⟩ := kv
      have h0 : k0 ≠ k := h (k0, v) (by simp)
      simp [delK, h0]
      exact ih fun kv hkv => h kv (List.mem_cons_of_mem _ hkv)

theorem foldl_delK_contains (S : List String) (l : List (String × JVal)) :
    List.foldl delK l S = l.filter (fun kv => !S.contains kv.1) := by
  induction S generalizing l with
  | nil =>
      show l = l.filter fun kv => !([] : List String).contains kv.1
      simp
  | cons s S' ih =>
      show List.foldl delK (delK l s) S' = _
      rw [ih (delK l s), delK_eq_filter]
      rw [List.filter_filter]
      apply List.filter_congr
      intro kv _
      by_cases h1 : kv.1 = s <;> by_cases h2 : S'.contains kv.1 = true <;>
        simp_all [List.contains_cons]

theorem delStale_eq_filter (pf : List (String × JVal)) :
    delStaleProviders pf = pf.filter (fun kv => !staleAiGatewayKey kv.1) := by
  unfold delStaleProviders
  rw [foldl_delK_contains]
  apply List.filter_congr
  intro kv hkv
  by_cases hs : staleAiGatewayKey kv.1 = true
  · have hmem : kv.1 ∈ (pf.map Prod.fst).filter staleAiGatewayKey :=
      List.mem_filter.mpr ⟨List.mem_map_of_mem _ hkv, hs⟩
    have hcont : ((pf.map Prod.fst).filter staleAiGatewayKey).contains kv.1 = true := by
      simpa using hmem
    rw [hcont, hs]
  · have hmem : kv.1 ∉ (pf.map Prod.fst).filter staleAiGatewayKey := by
      intro hc
      exact hs (List.mem_filter.mp hc).2
    have hcont : ((pf.map Prod.fst).filter staleAiGatewayKey).contains kv.1 = false := by
      simpa using hmem
    have hs' : staleAiGatewayKey kv.1 = false := by
      cases h : staleAiGatewayKey kv.1
      · rfl
      · exact absurd h hs
    rw [hcont, hs']

theorem delStale_delStale (pf : List (String × JVal)) :
    delStaleProviders (delStaleProviders pf) = delStaleProviders pf := by
  rw [delStale_eq_filter (delStaleProviders pf), delStale_eq_filter pf]
  rw [List.filter_filter]
  apply List.filter_congr
  intro kv _
  by_cases hs : staleAiGatewayKey kv.1 = true <;> simp [hs]

theorem jSet_jSet (c : JVal) (k : String) (v w : JVal) :
    jSet (jSet c k v) k w = jSet c k w := by
  cases c <;> simp [jSet, setK_setK_self]

theorem jGet_jSet_self_of_isObj (c : JVal) (k : String) (v : JVal)
    (h : isObj c = true) : jGet (jSet c k v) k = some v := by
  cases c <;> simp_all [jSet, jGet, isObj, getK_setK_self]

theorem jSet_jSet_past (x : JVal) (k k' : String) (v w : JVal) (h : k ≠ k') :
    jSet (jSet (jSet x k v) k' w) k v = jSet (jSet x k v) k' w := by
  cases hobj : isObj x with
  | false => simp only [jSet_of_isObj_false _ _ _ hobj]
  | true =>
      apply jSet_self
      rw [jGet_jSet_ne _ _ _ _ h]
      exact jGet_jSet_self_of_isObj _ _ _ hobj

theorem gwBase_frame (x : JVal) (k : String) (h1 : k ≠ "port") (h2 : k ≠ "mode")
    (h3 : k ≠ "trustedProxies") : jGet (gwBase x) k = jGet x k := by
  unfold gwBase
  rw [jGet_jSet_ne _ _ _ _ h3, jGet_jSet_ne _ _ _ _ h2, jGet_jSet_ne _ _ _ _ h1]

theorem gwAuth_frame (e : Env) (x : JVal) (k : String) (h : k ≠ "auth") :
    jGet (gwAuth e x) k = jGet x k := by
  unfold gwAuth
  split
  · rw [jGet_jModify_ne _ _ _ _ h, jGet_jSet_ne _ _ _ _ h]
  · rfl

theorem gwDev_frame (e : Env) (x : JVal) (k : String) (h : k ≠ "controlUi") :
    jGet (gwDev e x) k = jGet x k := by
  unfold gwDev
  split
  · rw [jGet_jModify_ne _ _ _ _ h, jGet_jSet_ne _ _ _ _ h]
  · rfl

theorem gwHttp_frame (x : JVal) (k : String) (h : k ≠ "http") :
    jGet (gwHttp x) k = jGet x k := by
  unfold gwHttp
  rw [jGet_jModify_ne _ _ _ _ h, jGet_jModify_ne _ _ _ _ h,
    jGet_jModify_ne _ _ _ _ h, jGet_jSet_ne _ _ _ _ h]

theorem gwAuth_eq_jSet (e : Env) (x : JVal) (ht : envSet e.openclawGatewayToken = true) :
    gwAuth e x = jSet x "auth" (jSet (orEmptyObj (jGet x "auth")) "token"
      (.str (e.openclawGatewayToken.getD ""))) := by
  unfold gwAuth
  rw [if_pos ht, jModify_jSet]

theorem gwDev_eq_jSet (e : Env) (x : JVal) (ht : e.openclawDevMode = some "true") :
    gwDev e x = jSet x "controlUi" (jSet (orEmptyObj (jGet x "controlUi"))
      "allowInsecureAuth" (.bool true)) := by
  unfold gwDev
  rw [if_pos ht, jModify_jSet]

theorem gwHttp_eq_jSet (x : JVal) :
    gwHttp x = jSet x "http" (jSet (orEmptyObj (jGet x "http")) "endpoints"
      (jSet (jSet (orEmptyObj (jGet (orEmptyObj (jGet x "http")) "endpoints"))
          "chatCompletions" (.obj [("enabled", .bool true)]))
        "responses" (.obj [("enabled", .bool true)]))) := by
  unfold gwHttp
  simp only [jModify_jSet]

/-- The gateway-settings block of the patch script is idempotent as a
transformation of the value stored under `config.gateway`. -/
theorem gwSettings_gwSettings (e : Env) (g : JVal) :
    gwSettings e (gwSettings e g) = gwSettings e g := by
  cases hobj : isObj g with
  | false =>
      rw [gwSettings_of_isObj_false e g hobj,
        gwSettings_of_isObj_false e g hobj]
  | true =>
      have hBobj : isObj (gwBase g) = true := by rw [isObj_gwBase]; exact hobj
      have hAobj : isObj (gwAuth e (gwBase g)) = true := by
        rw [isObj_gwAuth]; exact hBobj
      have hDobj : isObj (gwDev e (gwAuth e (gwBase g))) = true := by
        rw [isObj_gwDev]; exact hAobj
      have hGobj : isObj (gwSettings e g) = true := by
        rw [isObj_gwSettings]; exact hobj
      -- the three base reads
      have hport : jGet (gwSettings e g) "port" = some (.num 18789) := by
        unfold gwSettings
        rw [gwHttp_frame _ _ (by decide), gwDev_frame _ _ _ (by decide),
          gwAuth_frame _ _ _ (by decide)]
        unfold gwBase
        rw [jGet_jSet_ne _ _ _ _ (by decide), jGet_jSet_ne _ _ _ _ (by decide)]
        exact jGet_jSet_self_of_isObj _ _ _ hobj
      have hmode : jGet (gwSettings e g) "mode" = some (.str "local") := by
        unfold gwSettings
        rw [gwHttp_frame _ _ (by decide), gwDev_frame _ _ _ (by decide),
          gwAuth_frame _ _ _ (by decide)]
        unfold gwBase
        rw [jGet_jSet_ne _ _ _ _ (by decide)]
        exact jGet_jSet_self_of_isObj _ _ _ (by rw [isObj_jSet]; exact hobj)
      have hprox : jGet (gwSettings e g) "trustedProxies"
          = some (.arr [.str "10.1.0.0"]) := by
        unfold gwSettings
        rw [gwHttp_frame _ _ (by decide), gwDev_frame _ _ _ (by decide),
          gwAuth_frame _ _ _ (by decide)]
        unfold gwBase
        exact jGet_jSet_self_of_isObj _ _ _
          (by rw [isObj_jSet, isObj_jSet]; exact hobj)
      -- second-run base writes absorb
      have hbase2 : gwBase (gwSettings e g) = gwSettings e g := by
        unfold gwBase
        rw [jSet_self _ _ _ hport, jSet_self _ _ _ hmode, jSet_self _ _ _ hprox]
      -- second-run auth writes absorb
      have hauth2 : gwAuth e (gwSettings e g) = gwSettings e g := by
        cases htok : envSet e.openclawGatewayToken with
        | false => unfold gwAuth; rw [htok]; rfl
        | true =>
            have hread : jGet (gwSettings e g) "auth"
                = some (jSet (orEmptyObj (jGet (gwBase g) "auth")) "token"
                    (.str (e.openclawGatewayToken.getD ""))) := by
              unfold gwSettings
              rw [gwHttp_frame _ _ (by decide), gwDev_frame _ _ _ (by decide)]
              rw [gwAuth_eq_jSet e _ htok]
              exact jGet_jSet_self_of_isObj _ _ _ hBobj
            rw [gwAuth_eq_jSet e _ htok, hread]
            rw [orEmptyObj_of_truthy _ (by rw [truthy_jSet]; exact truthy_orEmptyObj _)]
            rw [jSet_jSet]
            exact jSet_self _ _ _ hread
      -- second-run dev writes absorb
      have hdev2 : gwDev e (gwSettings e g) = gwSettings e g := by
        cases hdm : decide (e.openclawDevMode = some "true") with
        | false =>
            unfold gwDev
            rw [if_neg (of_decide_eq_false hdm)]
        | true =>
            have hdm' := of_decide_eq_true hdm
            have hread : jGet (gwSettings e g) "controlUi"
                = some (jSet (orEmptyObj (jGet (gwAuth e (gwBase g)) "controlUi"))
                    "allowInsecureAuth" (.bool true)) := by
              unfold gwSettings
              rw [gwHttp_frame _ _ (by decide)]
              rw [gwDev_eq_jSet e _ hdm']
              exact jGet_jSet_self_of_isObj _ _ _ hAobj
            rw [gwDev_eq_jSet e _ hdm', hread]
            rw [orEmptyObj_of_truthy _ (by rw [truthy_jSet]; exact truthy_orEmptyObj _)]
            rw [jSet_jSet]
            exact jSet_self _ _ _ hread
      -- second-run http writes absorb
      have hhttp2 : gwHttp (gwSettings e g) = gwSettings e g := by
        have hread : jGet (gwSettings e g) "http"
            = some (jSet (orEmptyObj (jGet (gwDev e (gwAuth e (gwBase g))) "http"))
                "endpoints"
                (jSet (jSet (orEmptyObj (jGet (orEmptyObj
                      (jGet (gwDev e (gwAuth e (gwBase g))) "http")) "endpoints"))
                    "chatCompletions" (.obj [("enabled", .bool true)]))
                  "responses" (.obj [("enabled", .bool true)]))) := by
          show jGet (gwHttp (gwDev e (gwAuth e (gwBase g)))) "http" = _
          rw [gwHttp_eq_jSet]
          exact jGet_jSet_self_of_isObj _ _ _ hDobj
        rw [gwHttp_eq_jSet (gwSettings e g), hread]
        rw [orEmptyObj_of_truthy _ (by
          rw [truthy_jSet]; exact truthy_orEmptyObj _)]
        -- the endpoints value read back
        cases hH0 : isObj (orEmptyObj (jGet (gwDev e (gwAuth e (gwBase g))) "http")) with
        | true =>
            rw [jGet_jSet_self_of_isObj _ _ _ hH0]
            rw [orEmptyObj_of_truthy _ (by
              rw [truthy_jSet, truthy_jSet]; exact truthy_orEmptyObj _)]
            rw [jSet_jSet_past _ _ _ _ _ (by decide)]
            rw [jSet_jSet_past _ _ _ _ _ (by decide)]
            rw [jSet_jSet]
            exact jSet_self _ _ _ hread
        | false =>
            rw [jSet_of_isObj_false _ _ _ hH0] at hread ⊢
            rw [jSet_of_isObj_false _ _ _ hH0]
            exact jSet_self _ _ _ hread
      show gwHttp (gwDev e (gwAuth e (gwBase (gwSettings e g)))) = gwSettings e g
      rw [hbase2, hauth2, hdev2, hhttp2]

theorem getK_setIn_ne (l : List (String × JVal)) (k1 k2 : String) (v : JVal)
    (k : String) (h : k ≠ k1) : getK (setIn l k1 k2 v) k = getK l k := by
  unfold setIn
  cases hg : getK l k1 with
  | none => rfl
  | some w => exact getK_setK_ne _ _ _ _ h

theorem truthy_getK_setIn (l : List (String × JVal)) (k1 k2 : String) (v : JVal) :
    truthy (getK (setIn l k1 k2 v) k1) = truthy (getK l k1) := by
  unfold setIn
  cases hg : getK l k1 with
  | none => rw [hg]
  | some w =>
      rw [getK_setK_self]
      exact truthy_jSet w k2 v

theorem setIn_none (l : List (String × JVal)) (k1 k2 : String) (v : JVal)
    (h : getK l k1 = none) : setIn l k1 k2 v = l := by
  unfold setIn
  rw [h]

theorem getIn_eq_jGet (l : List (String × JVal)) (k1 k2 : String) (w : JVal)
    (hg : getK l k1 = some w) : getIn l k1 k2 = jGet w k2 := by
  unfold getIn
  rw [hg]

theorem setIn_collapse (l : List (String × JVal)) (k1 k2 : String) (v w : JVal)
    (hg : getK l k1 = some w) (hw : isObj w = false) : setIn l k1 k2 v = l := by
  unfold setIn
  rw [hg]
  show setK l k1 (jSet w k2 v) = l
  rw [jSet_of_isObj_false _ _ _ hw]
  exact setK_self _ _ _ hg

theorem setIn_self (l : List (String × JVal)) (k1 k2 : String) (v : JVal)
    (h : getIn l k1 k2 = some v) : setIn l k1 k2 v = l := by
  unfold setIn
  cases hg : getK l k1 with
  | none => rfl
  | some w =>
      rw [getIn_eq_jGet l k1 k2 w hg] at h
      show setK l k1 (jSet w k2 v) = l
      rw [jSet_self _ _ _ h]
      exact setK_self _ _ _ hg

theorem allValid_filterKeys (v : JVal) (V : List String) :
    (filterKeys v V).all (fun kv => V.contains kv.1) = true := by
  unfold filterKeys
  cases v with
  | obj fields =>
      rw [List.all_eq_true]
      intro kv hkv
      exact (List.mem_filter.mp hkv).2
  | null => rfl
  | bool b => rfl
  | num n => rfl
  | str s => rfl
  | arr a => rfl

theorem allValid_setK (V : List String) (l : List (String × JVal)) (k : String)
    (v : JVal) (hl : l.all (fun kv => V.contains kv.1) = true)
    (hk : V.contains k = true) :
    (setK l k v).all (fun kv => V.contains kv.1) = true := by
  rw [List.all_eq_true] at hl ⊢
  intro kv hkv
  rcases mem_keys_setK l k v kv hkv with h | h
  · simpa [h] using hk
  · exact hl kv h

theorem allValid_setIn (V : List String) (l : List (String × JVal))
    (k1 k2 : String) (v : JVal) (hl : l.all (fun kv => V.contains kv.1) = true)
    (hk : V.contains k1 = true) :
    (setIn l k1 k2 v).all (fun kv => V.contains kv.1) = true := by
  unfold setIn
  cases hg : getK l k1 with
  | none => exact hl
  | some w => exact allValid_setK V l k1 _ hl hk

theorem filterKeys_of_allValid (V : List String) (l : List (String × JVal))
    (hl : l.all (fun kv => V.contains kv.1) = true) :
    filterKeys (.obj l) V = l := by
  unfold filterKeys
  rw [List.all_eq_true] at hl
  exact List.filter_eq_self.mpr hl

theorem truthy_str_of_envSet (x : Option String) (h : envSet x = true) :
    truthy (some (.str (x.getD ""))) = true := by
  cases x with
  | none => exact absurd h (by decide)
  | some s => exact h

/-! ### Slack block: allow-list shape and idempotence -/

theorem slackBlock_allValid (e : Env) (old : Option JVal) :
    (slackBlock e old).all (fun kv => VALID_SLACK_KEYS.contains kv.1) = true := by
  unfold slackBlock
  exact allValid_setK _ _ _ _
    (allValid_setK _ _ _ _
      (allValid_setK _ _ _ _ (allValid_filterKeys _ _) (by decide))
      (by decide))
    (by decide)

theorem slackBlock_idem (e : Env) (old : Option JVal) :
    slackBlock e (some (.obj (slackBlock e old))) = slackBlock e old := by
  set L := slackBlock e old with hL
  have hv : L.all (fun kv => VALID_SLACK_KEYS.contains kv.1) = true := by
    rw [hL]; exact slackBlock_allValid e old
  have h1 : getK L "botToken" = some (.str (e.slackBotToken.getD "")) := by
    rw [hL]
    unfold slackBlock
    rw [getK_setK_ne _ _ _ _ (by decide), getK_setK_ne _ _ _ _ (by decide),
      getK_setK_self]
  have h2 : getK L "appToken" = some (.str (e.slackAppToken.getD "")) := by
    rw [hL]
    unfold slackBlock
    rw [getK_setK_ne _ _ _ _ (by decide), getK_setK_self]
  have h3 : getK L "enabled" = some (.bool true) := by
    rw [hL]
    unfold slackBlock
    rw [getK_setK_self]
  unfold slackBlock
  rw [show orEmptyObj (some (.obj L)) = .obj L from rfl]
  rw [filterKeys_of_allValid _ _ hv]
  rw [setK_self L "botToken" _ h1, setK_self L "appToken" _ h2,
    setK_self L "enabled" _ h3]

/-! ### Telegram block: allow-list shape and idempotence -/

theorem getK_telegramEnvPolicy_ne (e : Env) (l : List (String × JVal))
    (k : String) (h : k ≠ "dmPolicy") :
    getK (telegramEnvPolicy e l) k = getK l k := by
  unfold telegramEnvPolicy
  split
  · exact getK_setK_ne _ _ _ _ h
  · rfl

theorem getK_telegramDefaultPolicy_ne (l : List (String × JVal)) (k : String)
    (h : k ≠ "dmPolicy") : getK (telegramDefaultPolicy l) k = getK l k := by
  unfold telegramDefaultPolicy
  split
  · exact getK_setK_ne _ _ _ _ h
  · rfl

theorem getK_telegramAllowFrom_ne (e : Env) (l : List (String × JVal))
    (k : String) (h : k ≠ "allowFrom") :
    getK (telegramAllowFrom e l) k = getK l k := by
  unfold telegramAllowFrom
  split
  · exact getK_setK_ne _ _ _ _ h
  · split
    · exact getK_setK_ne _ _ _ _ h
    · rfl

theorem telegramBlock_allValid (e : Env) (old : Option JVal) :
    (telegramBlock e old).all (fun kv => VALID_TELEGRAM_KEYS.contains kv.1) = true := by
  have hbase : (telegramBase e old).all
      (fun kv => VALID_TELEGRAM_KEYS.contains kv.1) = true := by
    unfold telegramBase
    exact allValid_setK _ _ _ _
      (allValid_setK _ _ _ _ (allValid_filterKeys _ _) (by decide)) (by decide)
  have henv : ∀ l, l.all (fun kv => VALID_TELEGRAM_KEYS.contains kv.1) = true →
      (telegramEnvPolicy e l).all (fun kv => VALID_TELEGRAM_KEYS.contains kv.1) = true := by
    intro l hl
    unfold telegramEnvPolicy
    split
    · exact allValid_setK _ _ _ _ hl (by decide)
    · exact hl
  have hdef : ∀ l, l.all (fun kv => VALID_TELEGRAM_KEYS.contains kv.1) = true →
      (telegramDefaultPolicy l).all (fun kv => VALID_TELEGRAM_KEYS.contains kv.1) = true := by
    intro l hl
    unfold telegramDefaultPolicy
    split
    · exact allValid_setK _ _ _ _ hl (by decide)
    · exact hl
  have hall : ∀ l, l.all (fun kv => VALID_TELEGRAM_KEYS.contains kv.1) = true →
      (telegramAllowFrom e l).all (fun kv => VALID_TELEGRAM_KEYS.contains kv.1) = true := by
    intro l hl
    unfold telegramAllowFrom
    split
    · exact allValid_setK _ _ _ _ hl (by decide)
    · split
      · exact allValid_setK _ _ _ _ hl (by decide)
      · exact hl
  exact hall _ (hdef _ (henv _ hbase))

theorem telegramBlock_botToken (e : Env) (old : Option JVal) :
    getK (telegramBlock e old) "botToken" = some (.str (e.telegramBotToken.getD "")) := by
  unfold telegramBlock
  rw [getK_telegramAllowFrom_ne _ _ _ (by decide),
    getK_telegramDefaultPolicy_ne _ _ (by decide),
    getK_telegramEnvPolicy_ne _ _ _ (by decide)]
  unfold telegramBase
  rw [getK_setK_ne _ _ _ _ (by decide), getK_setK_self]

theorem telegramBlock_enabled (e : Env) (old : Option JVal) :
    getK (telegramBlock e old) "enabled" = some (.bool true) := by
  unfold telegramBlock
  rw [getK_telegramAllowFrom_ne _ _ _ (by decide),
    getK_telegramDefaultPolicy_ne _ _ (by decide),
    getK_telegramEnvPolicy_ne _ _ _ (by decide)]
  unfold telegramBase
  rw [getK_setK_self]

theorem telegramBlock_dmPolicy_truthy (e : Env) (old : Option JVal) :
    truthy (getK (telegramBlock e old) "dmPolicy") = true := by
  unfold telegramBlock
  rw [getK_telegramAllowFrom_ne _ _ _ (by decide)]
  unfold telegramDefaultPolicy
  split
  · rw [getK_setK_self]; decide
  · next h => simpa using h

theorem telegramBlock_dmPolicy_env (e : Env) (old : Option JVal)
    (henv : envSet e.telegramDmPolicy = true) :
    getK (telegramBlock e old) "dmPolicy"
      = some (.str (e.telegramDmPolicy.getD "")) := by
  unfold telegramBlock
  rw [getK_telegramAllowFrom_ne _ _ _ (by decide)]
  have hpol : getK (telegramEnvPolicy e (telegramBase e old)) "dmPolicy"
      = some (.str (e.telegramDmPolicy.getD "")) := by
    unfold telegramEnvPolicy
    rw [if_pos henv, getK_setK_self]
  unfold telegramDefaultPolicy
  rw [hpol, truthy_str_of_envSet _ henv]
  exact hpol

theorem telegramBlock_allowFrom_env (e : Env) (old : Option JVal)
    (henv : envSet e.telegramDmAllowFrom = true) :
    getK (telegramBlock e old) "allowFrom"
      = some (.arr (((e.telegramDmAllowFrom.getD "").splitOn ",").map JVal.str)) := by
  unfold telegramBlock telegramAllowFrom
  rw [if_pos henv, getK_setK_self]

theorem telegramBlock_open_allow (e : Env) (old : Option JVal)
    (hopen : isStrVal (getK (telegramBlock e old) "dmPolicy") "open" = true) :
    truthy (getK (telegramBlock e old) "allowFrom") = true := by
  unfold telegramBlock at hopen ⊢
  rw [getK_telegramAllowFrom_ne _ _ _ (by decide)] at hopen
  unfold telegramAllowFrom
  split
  · rw [getK_setK_self]; rfl
  · split
    · rw [getK_setK_self]; rfl
    · next h =>
        rw [hopen] at h
        simpa using h

theorem telegramBlock_idem (e : Env) (old : Option JVal) :
    telegramBlock e (some (.obj (telegramBlock e old))) = telegramBlock e old := by
  set L := telegramBlock e old with hL
  have hv : L.all (fun kv => VALID_TELEGRAM_KEYS.contains kv.1) = true := by
    rw [hL]; exact telegramBlock_allValid e old
  have hbt : getK L "botToken" = some (.str (e.telegramBotToken.getD "")) := by
    rw [hL]; exact telegramBlock_botToken e old
  have hen : getK L "enabled" = some (.bool true) := by
    rw [hL]; exact telegramBlock_enabled e old
  have hbase : telegramBase e (some (.obj L)) = L := by
    unfold telegramBase
    rw [show orEmptyObj (some (.obj L)) = .obj L from rfl]
    rw [filterKeys_of_allValid _ _ hv]
    rw [setK_self L "botToken" _ hbt, setK_self L "enabled" _ hen]
  have henvp : telegramEnvPolicy e L = L := by
    unfold telegramEnvPolicy
    split
    · next h => exact setK_self _ _ _ (by rw [hL]; exact telegramBlock_dmPolicy_env e old h)
    · rfl
  have hdefp : telegramDefaultPolicy L = L := by
    unfold telegramDefaultPolicy
    rw [show truthy (getK L "dmPolicy") = true from by
      rw [hL]; exact telegramBlock_dmPolicy_truthy e old]
    rfl
  have hallow : telegramAllowFrom e L = L := by
    unfold telegramAllowFrom
    split
    · next h => exact setK_self _ _ _ (by rw [hL]; exact telegramBlock_allowFrom_env e old h)
    · split
      · next h =>
          exfalso
          rw [Bool.and_eq_true] at h
          have ht : truthy (getK L "allowFrom") = true := by
            rw [hL]
            exact telegramBlock_open_allow e old (by rw [← hL]; exact h.1)
          rw [ht] at h
          simpa using h.2
      · rfl
  show telegramAllowFrom e (telegramDefaultPolicy (telegramEnvPolicy e
    (telegramBase e (some (.obj L))))) = L
  rw [hbase, henvp, hdefp, hallow]

/-! ### Discord block: allow-list shape and idempotence -/

theorem getK_discordEnvPolicy_ne (e : Env) (l : List (String × JVal))
    (k : String) (h : k ≠ "dm") : getK (discordEnvPolicy e l) k = getK l k := by
  unfold discordEnvPolicy
  split
  · exact getK_setIn_ne _ _ _ _ _ h
  · rfl

theorem getK_discordDefaultPolicy_ne (l : List (String × JVal)) (k : String)
    (h : k ≠ "dm") : getK (discordDefaultPolicy l) k = getK l k := by
  unfold discordDefaultPolicy
  split
  · exact getK_setIn_ne _ _ _ _ _ h
  · rfl

theorem getK_discordOpenAllow_ne (l : List (String × JVal)) (k : String)
    (h : k ≠ "dm") : getK (discordOpenAllow l) k = getK l k := by
  unfold discordOpenAllow
  split
  · exact getK_setIn_ne _ _ _ _ _ h
  · rfl

theorem discordBlock_allValid (e : Env) (old : Option JVal) :
    (discordBlock e old).all (fun kv => VALID_DISCORD_KEYS.contains kv.1) = true := by
  have hbase : (discordEnsureDm (setK (setK (filterKeys (orEmptyObj old)
      VALID_DISCORD_KEYS) "token" (.str (e.discordBotToken.getD "")))
      "enabled" (.bool true))).all
      (fun kv => VALID_DISCORD_KEYS.contains kv.1) = true := by
    unfold discordEnsureDm
    exact allValid_setK _ _ _ _
      (allValid_setK _ _ _ _
        (allValid_setK _ _ _ _ (allValid_filterKeys _ _) (by decide))
        (by decide))
      (by decide)
  have henv : ∀ l, l.all (fun kv => VALID_DISCORD_KEYS.contains kv.1) = true →
      (discordEnvPolicy e l).all (fun kv => VALID_DISCORD_KEYS.contains kv.1) = true := by
    intro l hl
    unfold discordEnvPolicy
    split
    · exact allValid_setIn _ _ _ _ _ hl (by decide)
    · exact hl
  have hdef : ∀ l, l.all (fun kv => VALID_DISCORD_KEYS.contains kv.1) = true →
      (discordDefaultPolicy l).all (fun kv => VALID_DISCORD_KEYS.contains kv.1) = true := by
    intro l hl
    unfold discordDefaultPolicy
    split
    · exact allValid_setIn _ _ _ _ _ hl (by decide)
    · exact hl
  have hopen : ∀ l, l.all (fun kv => VALID_DISCORD_KEYS.contains kv.1) = true →
      (discordOpenAllow l).all (fun kv => VALID_DISCORD_KEYS.contains kv.1) = true := by
    intro l hl
    unfold discordOpenAllow
    split
    · exact allValid_setIn _ _ _ _ _ hl (by decide)
    · exact hl
  exact hopen _ (hdef _ (henv _ hbase))

theorem discordBlock_token (e : Env) (old : Option JVal) :
    getK (discordBlock e old) "token" = some (.str (e.discordBotToken.getD "")) := by
  unfold discordBlock
  rw [getK_discordOpenAllow_ne _ _ (by decide),
    getK_discordDefaultPolicy_ne _ _ (by decide),
    getK_discordEnvPolicy_ne _ _ _ (by decide)]
  unfold discordEnsureDm
  rw [getK_setK_ne _ _ _ _ (by decide), getK_setK_ne _ _ _ _ (by decide),
    getK_setK_self]

theorem discordBlock_enabled (e : Env) (old : Option JVal) :
    getK (discordBlock e old) "enabled" = some (.bool true) := by
  unfold discordBlock
  rw [getK_discordOpenAllow_ne _ _ (by decide),
    getK_discordDefaultPolicy_ne _ _ (by decide),
    getK_discordEnvPolicy_ne _ _ _ (by decide)]
  unfold discordEnsureDm
  rw [getK_setK_ne _ _ _ _ (by decide), getK_setK_self]

theorem discordEnvPolicy_dm (e : Env) (l : List (String × JVal)) (w : JVal)
    (hw : getK l "dm" = some w) (hobj : isObj w = true) :
    ∃ w2, getK (discordEnvPolicy e l) "dm" = some w2 ∧ isObj w2 = true ∧
      (envSet e.discordDmPolicy = true →
        jGet w2 "policy" = some (.str (e.discordDmPolicy.getD ""))) ∧
      (envSet e.discordDmPolicy = false → w2 = w) ∧
      truthy (some w2) = truthy (some w) := by
  unfold discordEnvPolicy
  split
  · next henv =>
      refine ⟨jSet w "policy" (.str (e.discordDmPolicy.getD "")), ?_, ?_,
        fun _ => ?_, fun hf => ?_, ?_⟩
      · unfold setIn
        rw [hw]
        show getK (setK l "dm" (jSet w "policy" _)) "dm" = _
        rw [getK_setK_self]
      · rw [isObj_jSet]; exact hobj
      · exact jGet_jSet_self_of_isObj _ _ _ hobj
      · rw [henv] at hf; exact absurd hf (by decide)
      · exact truthy_jSet _ _ _
  · next henv =>
      refine ⟨w, hw, hobj, fun h => absurd h henv, fun _ => rfl, rfl⟩

theorem discordDefaultPolicy_dm (l : List (String × JVal)) (w : JVal)
    (hw : getK l "dm" = some w) (hobj : isObj w = true) :
    ∃ w2, getK (discordDefaultPolicy l) "dm" = some w2 ∧ isObj w2 = true ∧
      truthy (jGet w2 "policy") = true ∧
      (∀ s, jGet w "policy" = some (.str s) → truthy (some (JVal.str s)) = true →
        jGet w2 "policy" = some (.str s)) ∧
      truthy (some w2) = truthy (some w) := by
  unfold discordDefaultPolicy
  rw [getIn_eq_jGet l "dm" "policy" w hw]
  split
  · next h =>
      refine ⟨jSet w "policy" (.str "pairing"), ?_, ?_, ?_, fun s hs hst => ?_, ?_⟩
      · unfold setIn
        rw [hw]
        show getK (setK l "dm" (jSet w "policy" _)) "dm" = _
        rw [getK_setK_self]
      · rw [isObj_jSet]; exact hobj
      · rw [jGet_jSet_self_of_isObj _ _ _ hobj]; decide
      · rw [hs, hst] at h
        exact absurd h (by decide)
      · exact truthy_jSet _ _ _
  · next h =>
      refine ⟨w, hw, hobj, ?_, fun s hs _ => hs, rfl⟩
      simpa using h

theorem discordOpenAllow_dm (l : List (String × JVal)) (w : JVal)
    (hw : getK l "dm" = some w) (hobj : isObj w = true) :
    ∃ w2, getK (discordOpenAllow l) "dm" = some w2 ∧ isObj w2 = true ∧
      jGet w2 "policy" = jGet w "policy" ∧
      (isStrVal (jGet w2 "policy") "open" = true →
        truthy (jGet w2 "allowFrom") = true) ∧
      truthy (some w2) = truthy (some w) := by
  unfold discordOpenAllow
  rw [getIn_eq_jGet l "dm" "policy" w hw, getIn_eq_jGet l "dm" "allowFrom" w hw]
  split
  · next h =>
      refine ⟨jSet w "allowFrom" (.arr [.str "*"]), ?_, ?_, ?_, fun _ => ?_, ?_⟩
      · unfold setIn
        rw [hw]
        show getK (setK l "dm" (jSet w "allowFrom" _)) "dm" = _
        rw [getK_setK_self]
      · rw [isObj_jSet]; exact hobj
      · exact jGet_jSet_ne _ _ _ _ (by decide)
      · rw [jGet_jSet_self_of_isObj _ _ _ hobj]; rfl
      · exact truthy_jSet _ _ _
  · next h =>
      refine ⟨w, hw, hobj, rfl, fun hopen => ?_, rfl⟩
      rw [hopen] at h
      simpa using h

/-- The value stored under `"dm"` by the Discord block: it exists, it is
truthy, and — when it is an object — its `policy` is truthy, reflects
`DISCORD_DM_POLICY` when that is set, and an `'open'` policy always comes
with a truthy `allowFrom`. -/
theorem discordBlock_dm_spec (e : Env) (old : Option JVal) :
    ∃ w, getK (discordBlock e old) "dm" = some w ∧ truthy (some w) = true ∧
      (isObj w = true →
        (envSet e.discordDmPolicy = true →
          jGet w "policy" = some (.str (e.discordDmPolicy.getD "")))
        ∧ truthy (jGet w "policy") = true
        ∧ (isStrVal (jGet w "policy") "open" = true →
            truthy (jGet w "allowFrom") = true)) := by
  unfold discordBlock
  have hb3 : getK (discordEnsureDm (setK (setK (filterKeys (orEmptyObj old)
      VALID_DISCORD_KEYS) "token" (.str (e.discordBotToken.getD "")))
      "enabled" (.bool true))) "dm"
      = some (orEmptyObj (getK (setK (setK (filterKeys (orEmptyObj old)
        VALID_DISCORD_KEYS) "token" (.str (e.discordBotToken.getD "")))
        "enabled" (.bool true)) "dm")) := by
    unfold discordEnsureDm
    rw [getK_setK_self]
  cases hW0 : isObj (orEmptyObj (getK (setK (setK (filterKeys (orEmptyObj old)
      VALID_DISCORD_KEYS) "token" (.str (e.discordBotToken.getD "")))
      "enabled" (.bool true)) "dm")) with
  | false =>
      have hcol1 : discordEnvPolicy e (discordEnsureDm (setK (setK (filterKeys
          (orEmptyObj old) VALID_DISCORD_KEYS) "token"
          (.str (e.discordBotToken.getD ""))) "enabled" (.bool true)))
          = discordEnsureDm (setK (setK (filterKeys (orEmptyObj old)
            VALID_DISCORD_KEYS) "token" (.str (e.discordBotToken.getD "")))
            "enabled" (.bool true)) := by
        unfold discordEnvPolicy
        split
        · exact setIn_collapse _ _ _ _ _ hb3 hW0
        · rfl
      have hpol : getIn (discordEnsureDm (setK (setK (filterKeys (orEmptyObj old)
          VALID_DISCORD_KEYS) "token" (.str (e.discordBotToken.getD "")))
          "enabled" (.bool true))) "dm" "policy" = none := by
        rw [getIn_eq_jGet _ _ _ _ hb3]
        exact jGet_of_isObj_false _ _ hW0
      have hcol2 : discordDefaultPolicy (discordEnsureDm (setK (setK (filterKeys
          (orEmptyObj old) VALID_DISCORD_KEYS) "token"
          (.str (e.discordBotToken.getD ""))) "enabled" (.bool true)))
          = discordEnsureDm (setK (setK (filterKeys (orEmptyObj old)
            VALID_DISCORD_KEYS) "token" (.str (e.discordBotToken.getD "")))
            "enabled" (.bool true)) := by
        unfold discordDefaultPolicy
        rw [hpol]
        exact setIn_collapse _ _ _ _ _ hb3 hW0
      have hcol3 : discordOpenAllow (discordEnsureDm (setK (setK (filterKeys
          (orEmptyObj old) VALID_DISCORD_KEYS) "token"
          (.str (e.discordBotToken.getD ""))) "enabled" (.bool true)))
          = discordEnsureDm (setK (setK (filterKeys (orEmptyObj old)
            VALID_DISCORD_KEYS) "token" (.str (e.discordBotToken.getD "")))
            "enabled" (.bool true)) := by
        unfold discordOpenAllow
        rw [hpol]
        rfl
      rw [hcol1, hcol2, hcol3]
      refine ⟨_, hb3, truthy_orEmptyObj _, fun hobj => ?_⟩
      rw [hW0] at hobj
      exact absurd hobj (by decide)
  | true =>
      obtain ⟨w1, hw1, hobj1, hpol1, hkeep1, ht1⟩ :=
        discordEnvPolicy_dm e _ _ hb3 hW0
      obtain ⟨w2, hw2, hobj2, hpt2, hcarry2, ht2⟩ :=
        discordDefaultPolicy_dm _ _ hw1 hobj1
      obtain ⟨w3, hw3, hobj3, hpeq3, hopen3, ht3⟩ :=
        discordOpenAllow_dm _ _ hw2 hobj2
      refine ⟨w3, hw3, ?_, fun _ => ⟨fun henv => ?_, ?_, hopen3⟩⟩
      · rw [ht3, ht2, ht1]
        exact truthy_orEmptyObj _
      · rw [hpeq3]
        exact hcarry2 _ (hpol1 henv) (truthy_str_of_envSet _ henv)
      · rw [hpeq3]
        exact hpt2

theorem discordBlock_idem (e : Env) (old : Option JVal) :
    discordBlock e (some (.obj (discordBlock e old))) = discordBlock e old := by
  set L := discordBlock e old with hL
  have hv : L.all (fun kv => VALID_DISCORD_KEYS.contains kv.1) = true := by
    rw [hL]; exact discordBlock_allValid e old
  have htok : getK L "token" = some (.str (e.discordBotToken.getD "")) := by
    rw [hL]; exact discordBlock_token e old
  have hen : getK L "enabled" = some (.bool true) := by
    rw [hL]; exact discordBlock_enabled e old
  obtain ⟨w, hw, hwt, hclauses⟩ : ∃ w, getK L "dm" = some w ∧
      truthy (some w) = true ∧
      (isObj w = true →
        (envSet e.discordDmPolicy = true →
          jGet w "policy" = some (.str (e.discordDmPolicy.getD "")))
        ∧ truthy (jGet w "policy") = true
        ∧ (isStrVal (jGet w "policy") "open" = true →
            truthy (jGet w "allowFrom") = true)) := by
    rw [hL]; exact discordBlock_dm_spec e old
  have hdm : discordEnsureDm L = L := by
    unfold discordEnsureDm
    rw [hw, orEmptyObj_of_truthy _ hwt]
    exact setK_self _ _ _ hw
  have henvp : discordEnvPolicy e L = L := by
    unfold discordEnvPolicy
    split
    · next henv =>
        cases hobjw : isObj w with
        | false => exact setIn_collapse _ _ _ _ _ hw hobjw
        | true =>
            apply setIn_self
            rw [getIn_eq_jGet L "dm" "policy" w hw]
            exact (hclauses hobjw).1 henv
    · rfl
  have hdefp : discordDefaultPolicy L = L := by
    unfold discordDefaultPolicy
    rw [getIn_eq_jGet L "dm" "policy" w hw]
    cases hobjw : isObj w with
    | false =>
        rw [jGet_of_isObj_false _ _ hobjw]
        exact setIn_collapse _ _ _ _ _ hw hobjw
    | true =>
        rw [(hclauses hobjw).2.1]
        rfl
  have hopenp : discordOpenAllow L = L := by
    unfold discordOpenAllow
    rw [getIn_eq_jGet L "dm" "policy" w hw,
      getIn_eq_jGet L "dm" "allowFrom" w hw]
    cases hobjw : isObj w with
    | false =>
        rw [jGet_of_isObj_false _ _ hobjw]
        rfl
    | true =>
        cases hso : isStrVal (jGet w "policy") "open" with
        | false => rfl
        | true =>
            rw [(hclauses hobjw).2.2 hso]
            rfl
  show discordOpenAllow (discordDefaultPolicy (discordEnvPolicy e (discordEnsureDm
    (setK (setK (filterKeys (orEmptyObj (some (.obj L))) VALID_DISCORD_KEYS)
        "token" (.str (e.discordBotToken.getD "")))
      "enabled" (.bool true))))) = L
  rw [show orEmptyObj (some (.obj L)) = .obj L from rfl]
  rw [filterKeys_of_allValid _ _ hv]
  rw [setK_self L "token" _ htok, setK_self L "enabled" _ hen]
  rw [hdm, henvp, hdefp, hopenp]

/-! ### The channels object as a whole -/

theorem jGet_telegramStep_ne (e : Env) (ch : JVal) (k : String)
    (h : k ≠ "telegram") : jGet (telegramStep e ch) k = jGet ch k := by
  unfold telegramStep
  split
  · exact jGet_jSet_ne _ _ _ _ h
  · rfl

theorem jGet_discordStep_ne (e : Env) (ch : JVal) (k : String)
    (h : k ≠ "discord") : jGet (discordStep e ch) k = jGet ch k := by
  unfold discordStep
  split
  · exact jGet_jSet_ne _ _ _ _ h
  · rfl

theorem jGet_slackStep_ne (e : Env) (ch : JVal) (k : String)
    (h : k ≠ "slack") : jGet (slackStep e ch) k = jGet ch k := by
  unfold slackStep
  split
  · exact jGet_jSet_ne _ _ _ _ h
  · rfl

theorem isObj_telegramStep (e : Env) (ch : JVal) :
    isObj (telegramStep e ch) = isObj ch := by
  unfold telegramStep
  split
  · exact isObj_jSet _ _ _
  · rfl

theorem isObj_discordStep (e : Env) (ch : JVal) :
    isObj (discordStep e ch) = isObj ch := by
  unfold discordStep
  split
  · exact isObj_jSet _ _ _
  · rfl

/-- The channel-merge part of the patch script is idempotent as a
transformation of the value stored under `config.channels`. -/
theorem channelsSettings_channelsSettings (e : Env) (ch : JVal) :
    channelsSettings e (channelsSettings e ch) = channelsSettings e ch := by
  cases hobj : isObj ch with
  | false =>
      rw [channelsSettings_of_isObj_false e ch hobj,
        channelsSettings_of_isObj_false e ch hobj]
  | true =>
      have hobjT : isObj (telegramStep e ch) = true := by
        rw [isObj_telegramStep]; exact hobj
      have hobjD : isObj (discordStep e (telegramStep e ch)) = true := by
        rw [isObj_discordStep]; exact hobjT
      have hT : telegramStep e (channelsSettings e ch) = channelsSettings e ch := by
        unfold telegramStep
        split
        · next henv =>
            have hread : jGet (channelsSettings e ch) "telegram"
                = some (.obj (telegramBlock e (jGet ch "telegram"))) := by
              unfold channelsSettings
              rw [jGet_slackStep_ne _ _ _ (by decide),
                jGet_discordStep_ne _ _ _ (by decide)]
              unfold telegramStep
              rw [if_pos henv]
              exact jGet_jSet_self_of_isObj _ _ _ hobj
            rw [hread, telegramBlock_idem]
            exact jSet_self _ _ _ hread
        · rfl
      have hD : discordStep e (channelsSettings e ch) = channelsSettings e ch := by
        unfold discordStep
        split
        · next henv =>
            have hread : jGet (channelsSettings e ch) "discord"
                = some (.obj (discordBlock e (jGet (telegramStep e ch) "discord"))) := by
              unfold channelsSettings
              rw [jGet_slackStep_ne _ _ _ (by decide)]
              unfold discordStep
              rw [if_pos henv]
              exact jGet_jSet_self_of_isObj _ _ _ hobjT
            rw [hread, discordBlock_idem]
            exact jSet_self _ _ _ hread
        · rfl
      have hS : slackStep e (channelsSettings e ch) = channelsSettings e ch := by
        unfold slackStep
        split
        · next henv =>
            have hread : jGet (channelsSettings e ch) "slack"
                = some (.obj (slackBlock e
                    (jGet (discordStep e (telegramStep e ch)) "slack"))) := by
              unfold channelsSettings slackStep
              rw [if_pos henv]
              exact jGet_jSet_self_of_isObj _ _ _ hobjD
            rw [hread, slackBlock_idem]
            exact jSet_self _ _ _ hread
        · rfl
      show slackStep e (discordStep e (telegramStep e (channelsSettings e ch)))
        = channelsSettings e ch
      rw [hT, hD, hS]

/-! ### Reads through `jUpd`/`jModify` chains -/

theorem isObj_of_jGet_some (c : JVal) (k : String) (v : JVal)
    (h : jGet c k = some v) : isObj c = true := by
  cases c <;> simp_all [jGet, isObj]

theorem jGet_jUpd_self_of_isObj (c : JVal) (k : String) (f : Option JVal → JVal)
    (h : isObj c = true) : jGet (jUpd c k f) k = some (f (jGet c k)) := by
  cases c <;> simp_all [jUpd, jGet, isObj, getK_setK_self]

theorem jGet_jModify_self (c : JVal) (k : String) (f : JVal → JVal) (v : JVal)
    (hv : jGet c k = some v) (hobj : isObj c = true) :
    jGet (jModify c k f) k = some (f v) := by
  unfold jModify
  rw [hv]
  exact jGet_jSet_self_of_isObj _ _ _ hobj

/-! ### Stale AI-Gateway cleanup is absorbing on its own output -/

theorem jGetPath_cons (c : JVal) (k : String) (rest : List String) :
    jGetPath c (k :: rest)
      = match jGet c k with
        | some w => jGetPath w rest
        | none => none := rfl

theorem jGetPath_cons_eq (c c' : JVal) (k : String) (rest : List String)
    (h : jGet c k = jGet c' k) :
    jGetPath c (k :: rest) = jGetPath c' (k :: rest) := by
  rw [jGetPath_cons, jGetPath_cons, h]

theorem jGetPath_cons_some (c : JVal) (k : String) (rest : List String)
    (v : JVal) (h : jGetPath c (k :: rest) = some v) :
    ∃ w, jGet c k = some w ∧ jGetPath w rest = some v := by
  rw [jGetPath_cons] at h
  cases hg : jGet c k with
  | none => rw [hg] at h; exact absurd h (by simp)
  | some w => rw [hg] at h; exact ⟨w, rfl, h⟩

theorem truthy_some_of_isObj (v : JVal) (h : isObj v = true) :
    truthy (some v) = true := by
  cases v <;> simp_all [truthy, isObj]

/-- After one run of the stale-provider sweep, the `cf-ai-gw-*` provider
entries are gone: a second sweep has nothing to delete. -/
theorem staleProvidersPart_clean (c : JVal) (pf : List (String × JVal))
    (h : jGetPath (staleProvidersPart c) ["models", "providers"]
      = some (.obj pf)) : delStaleProviders pf = pf := by
  unfold staleProvidersPart at h
  split at h
  · next hcond =>
      split at h
      · next pf0 hmatch =>
          obtain ⟨mv, hmv, hrest⟩ := jGetPath_cons_some _ _ _ _ hmatch
          obtain ⟨pv, hpv, hnil⟩ := jGetPath_cons_some _ _ _ _ hrest
          have hpveq : pv = .obj pf0 := by
            injection hnil
          subst hpveq
          have hobjc : isObj c = true := isObj_of_jGet_some _ _ _ hmv
          have hobjmv : isObj mv = true := isObj_of_jGet_some _ _ _ hpv
          rw [jGetPath_cons,
            jGet_jModify_self _ _ _ _ hmv hobjc] at h
          have hred : jGetPath (jSet mv "providers" (.obj (delStaleProviders pf0)))
              ["providers"] = some (.obj pf) := h
          rw [jGetPath_cons, jGet_jSet_self_of_isObj _ _ _ hobjmv] at hred
          have hred2 : some (JVal.obj (delStaleProviders pf0))
              = some (JVal.obj pf) := hred
          injection hred2 with h1
          injection h1 with h2
          rw [← h2]
          exact delStale_delStale pf0
      · next hne => exact absurd h (hne pf)
  · next hcond =>
      obtain ⟨mv, hmv, hrest⟩ := jGetPath_cons_some _ _ _ _ h
      obtain ⟨pv, hpv, hnil⟩ := jGetPath_cons_some _ _ _ _ hrest
      have hobjmv : isObj mv = true := isObj_of_jGet_some _ _ _ hpv
      exfalso
      apply hcond
      rw [hmv, h, truthy_some_of_isObj mv hobjmv]
      rfl

/-- After the default-model sweep, the default model never points at a
`cf-ai-gw-*` provider (either it never did, or it was deleted). -/
theorem staleModelPart_not_stale (c : JVal) :
    staleDefaultModel (jGetPath (staleModelPart c)
      ["agents", "defaults", "model", "primary"]) = false := by
  unfold staleModelPart
  split
  · next hc =>
      cases hp : jGetPath c ["agents", "defaults", "model", "primary"] with
      | none => rw [hp] at hc; exact absurd hc (by decide)
      | some pv =>
          obtain ⟨av, hav, h1⟩ := jGetPath_cons_some _ _ _ _ hp
          obtain ⟨dv, hdv, h2⟩ := jGetPath_cons_some _ _ _ _ h1
          obtain ⟨mov, hmov, h3⟩ := jGetPath_cons_some _ _ _ _ h2
          have hobjc : isObj c = true := isObj_of_jGet_some _ _ _ hav
          have hobjav : isObj av = true := isObj_of_jGet_some _ _ _ hdv
          have hM : jGet (jDel dv "model") "model" = none := by
            cases dv with
            | obj fields => exact getK_delK_self _ _
            | null => rfl
            | bool b => rfl
            | num n => rfl
            | str s => rfl
            | arr a => rfl
          rw [jGetPath_cons, jGet_jModify_self _ _ _ _ hav hobjc]
          show staleDefaultModel (jGetPath (jModify av "defaults"
            (fun d => jDel d "model")) ["defaults", "model", "primary"]) = false
          rw [jGetPath_cons, jGet_jModify_self _ _ _ _ hdv hobjav]
          show staleDefaultModel (jGetPath (jDel dv "model")
            ["model", "primary"]) = false
          rw [jGetPath_cons, hM]
          rfl
  · next hc => simpa using hc

theorem staleModelPart_absorb (d : JVal)
    (h : staleDefaultModel (jGetPath d
      ["agents", "defaults", "model", "primary"]) = false) :
    staleModelPart d = d := by
  unfold staleModelPart
  rw [h]
  rfl

theorem staleProvidersPart_absorb (d : JVal)
    (hclean : ∀ pf, jGetPath d ["models", "providers"] = some (.obj pf) →
      delStaleProviders pf = pf) :
    staleProvidersPart d = d := by
  unfold staleProvidersPart
  split
  · next hcond =>
      split
      · next pf hmatch =>
          rw [hclean pf hmatch]
          obtain ⟨mv, hmv, hrest⟩ := jGetPath_cons_some _ _ _ _ hmatch
          obtain ⟨pv, hpv, hnil⟩ := jGetPath_cons_some _ _ _ _ hrest
          have hpveq : pv = .obj pf := by injection hnil
          subst hpveq
          apply jModify_absorb _ _ _ _ hmv
          rw [jSet_self _ _ _ hpv]
      · rfl
  · rfl

/-- The stale cleanup absorbs on any document whose `models`/`agents` reads
agree with the output of a first cleanup run. -/
theorem staleCleanup_absorb_of_reads (e : Env) (y d : JVal)
    (hm : (!envSet e.cfAiGatewayModel && !envSet e.cloudflareAiGatewayApiKey) = true →
      jGet d "models" = jGet (staleCleanup e y) "models")
    (ha : (!envSet e.cfAiGatewayModel && !envSet e.cloudflareAiGatewayApiKey) = true →
      jGet d "agents" = jGet (staleCleanup e y) "agents") :
    staleCleanup e d = d := by
  by_cases hc : (!envSet e.cfAiGatewayModel && !envSet e.cloudflareAiGatewayApiKey) = true
  · have hm' := hm hc
    have ha' := ha hc
    unfold staleCleanup at hm' ha' ⊢
    rw [if_pos hc] at hm' ha' ⊢
    rw [jGet_staleModelPart _ _ (by decide)] at hm'
    have hclean : ∀ pf, jGetPath d ["models", "providers"] = some (.obj pf) →
        delStaleProviders pf = pf := by
      intro pf hp
      apply staleProvidersPart_clean y pf
      rw [← jGetPath_cons_eq d (staleProvidersPart y) "models" ["providers"] hm']
      exact hp
    have hmodel : staleDefaultModel (jGetPath d
        ["agents", "defaults", "model", "primary"]) = false := by
      rw [jGetPath_cons_eq d (staleModelPart (staleProvidersPart y)) "agents"
        ["defaults", "model", "primary"] ha']
      exact staleModelPart_not_stale _
    rw [staleProvidersPart_absorb d hclean, staleModelPart_absorb d hmodel]
  · unfold staleCleanup
    rw [if_neg hc]

/-! ### The model-override block is absorbing on its own output -/

theorem jGet_aiGatewayWrite_models (pn : String) (entry : JVal) (mid : String)
    (y : JVal) (hy : isObj y = true) :
    jGet (aiGatewayWrite pn entry mid y) "models"
      = some (jSet (orEmptyObj (jGet y "models")) "providers"
          (jSet (orEmptyObj (jGet (orEmptyObj (jGet y "models")) "providers"))
            pn entry)) := by
  unfold aiGatewayWrite
  rw [jGet_jModify_ne _ _ _ _ (by decide), jGet_jModify_ne _ _ _ _ (by decide),
    jGet_jUpd_ne _ _ _ _ (by decide)]
  rw [jModify_jUpd_self, jModify_jUpd_self]
  rw [jGet_jUpd_self_of_isObj _ _ _ hy]
  simp only [jModify_jSet]

theorem jGet_aiGatewayWrite_agents (pn : String) (entry : JVal) (mid : String)
    (y : JVal) (hy : isObj y = true) :
    jGet (aiGatewayWrite pn entry mid y) "agents"
      = some (jSet (orEmptyObj (jGet y "agents")) "defaults"
          (jSet (orEmptyObj (jGet (orEmptyObj (jGet y "agents")) "defaults"))
            "model" (.obj [("primary", .str (pn ++ "/" ++ mid))]))) := by
  unfold aiGatewayWrite
  rw [jModify_jUpd_self, jModify_jUpd_self]
  rw [jGet_jUpd_self_of_isObj _ _ _ (by
    rw [isObj_jModify, isObj_jModify, isObj_jUpd]; exact hy)]
  rw [show jGet (jModify (jModify (jUpd y "models" orEmptyObj) "models"
      (fun m => jSet m "providers" (orEmptyObj (jGet m "providers"))))
      "models" (fun m => jModify m "providers" (fun p => jSet p pn entry)))
      "agents" = jGet y "agents" from by
    rw [jGet_jModify_ne _ _ _ _ (by decide), jGet_jModify_ne _ _ _ _ (by decide),
      jGet_jUpd_ne _ _ _ _ (by decide)]]
  simp only [jModify_jSet]

theorem aiGatewayWrite_absorb (pn : String) (entry : JVal) (mid : String)
    (d M0 P0 A0 D0 : JVal)
    (hm : jGet d "models" = some (jSet M0 "providers" (jSet P0 pn entry)))
    (ha : jGet d "agents" = some (jSet A0 "defaults" (jSet D0 "model"
      (.obj [("primary", .str (pn ++ "/" ++ mid))]))))
    (hM0 : truthy (some M0) = true) (hP0 : truthy (some P0) = true)
    (hA0 : truthy (some A0) = true) (hD0 : truthy (some D0) = true) :
    aiGatewayWrite pn entry mid d = d := by
  have h1 : jUpd d "models" orEmptyObj = d :=
    jUpd_orEmptyObj_absorb _ _ _ hm (by rw [truthy_jSet]; exact hM0)
  have h2 : jModify d "models"
      (fun m => jSet m "providers" (orEmptyObj (jGet m "providers"))) = d := by
    apply jModify_absorb _ _ _ _ hm
    cases hobjM : isObj M0 with
    | false =>
        rw [jSet_of_isObj_false _ _ _ hobjM]
        rw [jSet_of_isObj_false _ _ _ hobjM]
    | true =>
        rw [jGet_jSet_self_of_isObj _ _ _ hobjM]
        rw [orEmptyObj_of_truthy _ (by rw [truthy_jSet]; exact hP0)]
        exact jSet_jSet _ _ _ _
  have h3 : jModify d "models"
      (fun m => jModify m "providers" (fun p => jSet p pn entry)) = d := by
    apply jModify_absorb _ _ _ _ hm
    rw [jModify_jSet, jSet_jSet]
  have h4 : jUpd d "agents" orEmptyObj = d :=
    jUpd_orEmptyObj_absorb _ _ _ ha (by rw [truthy_jSet]; exact hA0)
  have h5 : jModify d "agents"
      (fun a => jSet a "defaults" (orEmptyObj (jGet a "defaults"))) = d := by
    apply jModify_absorb _ _ _ _ ha
    cases hobjA : isObj A0 with
    | false =>
        rw [jSet_of_isObj_false _ _ _ hobjA]
        rw [jSet_of_isObj_false _ _ _ hobjA]
    | true =>
        rw [jGet_jSet_self_of_isObj _ _ _ hobjA]
        rw [orEmptyObj_of_truthy _ (by rw [truthy_jSet]; exact hD0)]
        exact jSet_jSet _ _ _ _
  have h6 : jModify d "agents"
      (fun a => jModify a "defaults" (fun dd => jSet dd "model"
        (.obj [("primary", .str (pn ++ "/" ++ mid))]))) = d := by
    apply jModify_absorb _ _ _ _ ha
    rw [jModify_jSet, jSet_jSet]
  unfold aiGatewayWrite
  rw [h1, h2, h3, h4, h5, h6]

theorem aiGatewayOverride_inactive_env (e : Env) (x : JVal)
    (henv : envSet e.cfAiGatewayModel = false) : aiGatewayOverride e x = x := by
  unfold aiGatewayOverride
  rw [henv]
  rfl

theorem aiGatewayOverride_no_slash (e : Env) (x : JVal)
    (henv : envSet e.cfAiGatewayModel = true)
    (hsi : (e.cfAiGatewayModel.getD "").toList.indexOf? '/' = none) :
    aiGatewayOverride e x = x := by
  unfold aiGatewayOverride
  rw [if_pos henv]
  simp only [hsi]

theorem aiGatewayOverride_zero (e : Env) (x : JVal) (si : Nat)
    (henv : envSet e.cfAiGatewayModel = true)
    (hsi : (e.cfAiGatewayModel.getD "").toList.indexOf? '/' = some si)
    (h0 : si = 0) : aiGatewayOverride e x = x := by
  unfold aiGatewayOverride
  rw [if_pos henv]
  simp only [hsi, if_pos h0]

theorem aiGatewayOverride_nocred (e : Env) (x : JVal) (si : Nat)
    (henv : envSet e.cfAiGatewayModel = true)
    (hsi : (e.cfAiGatewayModel.getD "").toList.indexOf? '/' = some si)
    (h0 : ¬ si = 0)
    (hcred : ((aiGatewayBaseUrl e (gwProviderOf (e.cfAiGatewayModel.getD "") si)).isSome
      && envSet e.cloudflareAiGatewayApiKey) = false) :
    aiGatewayOverride e x = x := by
  unfold aiGatewayOverride
  rw [if_pos henv]
  simp only [hsi, if_neg h0, hcred]
  rfl

theorem aiGatewayOverride_active (e : Env) (x : JVal) (si : Nat)
    (henv : envSet e.cfAiGatewayModel = true)
    (hsi : (e.cfAiGatewayModel.getD "").toList.indexOf? '/' = some si)
    (h0 : ¬ si = 0)
    (hcred : ((aiGatewayBaseUrl e (gwProviderOf (e.cfAiGatewayModel.getD "") si)).isSome
      && envSet e.cloudflareAiGatewayApiKey) = true) :
    aiGatewayOverride e x = aiGatewayWrite
      ("cf-ai-gw-" ++ gwProviderOf (e.cfAiGatewayModel.getD "") si)
      (aiGatewayEntry e (gwProviderOf (e.cfAiGatewayModel.getD "") si)
        (modelIdOf (e.cfAiGatewayModel.getD "") si))
      (modelIdOf (e.cfAiGatewayModel.getD "") si) x := by
  unfold aiGatewayOverride
  rw [if_pos henv]
  simp only [hsi, if_neg h0, if_pos hcred]

/-- The model-override block absorbs on any document whose `models`/`agents`
reads agree with the output of a first override run. -/
theorem aiGatewayOverride_aiGatewayOverride (e : Env) (x d : JVal)
    (hobjx : isObj x = true)
    (hm : jGet d "models" = jGet (aiGatewayOverride e x) "models")
    (ha : jGet d "agents" = jGet (aiGatewayOverride e x) "agents") :
    aiGatewayOverride e d = d := by
  by_cases henv : envSet e.cfAiGatewayModel = true
  · cases hsi : (e.cfAiGatewayModel.getD "").toList.indexOf? '/' with
    | none => exact aiGatewayOverride_no_slash e d henv hsi
    | some si =>
        by_cases h0 : si = 0
        · exact aiGatewayOverride_zero e d si henv hsi h0
        · by_cases hcred : ((aiGatewayBaseUrl e
              (gwProviderOf (e.cfAiGatewayModel.getD "") si)).isSome
              && envSet e.cloudflareAiGatewayApiKey) = true
          · rw [aiGatewayOverride_active e d si henv hsi h0 hcred]
            rw [aiGatewayOverride_active e x si henv hsi h0 hcred] at hm ha
            rw [jGet_aiGatewayWrite_models _ _ _ _ hobjx] at hm
            rw [jGet_aiGatewayWrite_agents _ _ _ _ hobjx] at ha
            exact aiGatewayWrite_absorb _ _ _ _ _ _ _ _ hm ha
              (truthy_orEmptyObj _) (truthy_orEmptyObj _)
              (truthy_orEmptyObj _) (truthy_orEmptyObj _)
          · exact aiGatewayOverride_nocred e d si henv hsi h0
              (by simpa using hcred)
  · exact aiGatewayOverride_inactive_env e d (by simpa using henv)

/-! ### The whole patch script is idempotent -/

theorem isObj_patchConfig (e : Env) (c : JVal) :
    isObj (patchConfig e c) = isObj c := by
  unfold patchConfig
  rw [isObj_jModify, isObj_aiGatewayOverride, isObj_staleCleanup, isObj_jModify,
    isObj_jUpd, isObj_jUpd]

theorem jGet_patchConfig_gateway (e : Env) (c : JVal) (h : isObj c = true) :
    jGet (patchConfig e c) "gateway"
      = some (gwSettings e (orEmptyObj (jGet c "gateway"))) := by
  unfold patchConfig
  rw [jGet_jModify_ne _ _ _ _ (by decide)]
  rw [jGet_aiGatewayOverride _ _ _ (by decide) (by decide)]
  rw [jGet_staleCleanup _ _ _ (by decide) (by decide)]
  have hz1 : jGet (jUpd (jUpd c "gateway" orEmptyObj) "channels" orEmptyObj)
      "gateway" = some (orEmptyObj (jGet c "gateway")) := by
    rw [jGet_jUpd_ne _ _ _ _ (by decide)]
    exact jGet_jUpd_self_of_isObj _ _ _ h
  exact jGet_jModify_self _ _ _ _ hz1 (by rw [isObj_jUpd, isObj_jUpd]; exact h)

theorem jGet_patchConfig_channels (e : Env) (c : JVal) (h : isObj c = true) :
    jGet (patchConfig e c) "channels"
      = some (channelsSettings e (orEmptyObj (jGet c "channels"))) := by
  unfold patchConfig
  have hch : jGet (aiGatewayOverride e (staleCleanup e (jModify (jUpd (jUpd c
      "gateway" orEmptyObj) "channels" orEmptyObj) "gateway" (gwSettings e))))
      "channels" = some (orEmptyObj (jGet c "channels")) := by
    rw [jGet_aiGatewayOverride _ _ _ (by decide) (by decide),
      jGet_staleCleanup _ _ _ (by decide) (by decide),
      jGet_jModify_ne _ _ _ _ (by decide)]
    rw [jGet_jUpd_self_of_isObj _ _ _ (by rw [isObj_jUpd]; exact h)]
    rw [jGet_jUpd_ne _ _ _ _ (by decide)]
  exact jGet_jModify_self _ _ _ _ hch (by
    rw [isObj_aiGatewayOverride, isObj_staleCleanup, isObj_jModify, isObj_jUpd,
      isObj_jUpd]
    exact h)

/-- The embedded patch script is idempotent: patching an already-patched
configuration document changes nothing. -/
theorem patchConfig_patchConfig (e : Env) (c0 : JVal) :
    patchConfig e (patchConfig e c0) = patchConfig e c0 := by
  cases hobj : isObj c0 with
  | false =>
      rw [patchConfig_of_isObj_false e c0 hobj,
        patchConfig_of_isObj_false e c0 hobj]
  | true =>
      have hgw : jGet (patchConfig e c0) "gateway"
          = some (gwSettings e (orEmptyObj (jGet c0 "gateway"))) :=
        jGet_patchConfig_gateway e c0 hobj
      have hch : jGet (patchConfig e c0) "channels"
          = some (channelsSettings e (orEmptyObj (jGet c0 "channels"))) :=
        jGet_patchConfig_channels e c0 hobj
      have h1 : jUpd (patchConfig e c0) "gateway" orEmptyObj = patchConfig e c0 :=
        jUpd_orEmptyObj_absorb _ _ _ hgw
          (by rw [truthy_gwSettings]; exact truthy_orEmptyObj _)
      have h2 : jUpd (patchConfig e c0) "channels" orEmptyObj = patchConfig e c0 :=
        jUpd_orEmptyObj_absorb _ _ _ hch
          (by rw [truthy_channelsSettings]; exact truthy_orEmptyObj _)
      have h3 : jModify (patchConfig e c0) "gateway" (gwSettings e)
          = patchConfig e c0 :=
        jModify_absorb _ _ _ _ hgw (gwSettings_gwSettings e _)
      have hstale : staleCleanup e (patchConfig e c0) = patchConfig e c0 := by
        apply staleCleanup_absorb_of_reads e (jModify (jUpd (jUpd c0 "gateway"
          orEmptyObj) "channels" orEmptyObj) "gateway" (gwSettings e))
        · intro hc
          have hme : envSet e.cfAiGatewayModel = false := by
            rw [Bool.and_eq_true] at hc
            simpa using hc.1
          show jGet (patchConfig e c0) "models" = _
          unfold patchConfig
          rw [jGet_jModify_ne _ _ _ _ (by decide)]
          rw [aiGatewayOverride_inactive_env e _ hme]
        · intro hc
          have hme : envSet e.cfAiGatewayModel = false := by
            rw [Bool.and_eq_true] at hc
            simpa using hc.1
          show jGet (patchConfig e c0) "agents" = _
          unfold patchConfig
          rw [jGet_jModify_ne _ _ _ _ (by decide)]
          rw [aiGatewayOverride_inactive_env e _ hme]
      have haigw : aiGatewayOverride e (patchConfig e c0) = patchConfig e c0 := by
        apply aiGatewayOverride_aiGatewayOverride e (staleCleanup e (jModify
          (jUpd (jUpd c0 "gateway" orEmptyObj) "channels" orEmptyObj) "gateway"
          (gwSettings e)))
        · rw [isObj_staleCleanup, isObj_jModify, isObj_jUpd, isObj_jUpd]
          exact hobj
        · show jGet (patchConfig e c0) "models" = _
          unfold patchConfig
          exact jGet_jModify_ne _ _ _ _ (by decide)
        · show jGet (patchConfig e c0) "agents" = _
          unfold patchConfig
          exact jGet_jModify_ne _ _ _ _ (by decide)
      have hchan : jModify (patchConfig e c0) "channels" (channelsSettings e)
          = patchConfig e c0 :=
        jModify_absorb _ _ _ _ hch (channelsSettings_channelsSettings e _)
      show jModify (aiGatewayOverride e (staleCleanup e (jModify (jUpd (jUpd
        (patchConfig e c0) "gateway" orEmptyObj) "channels" orEmptyObj)
        "gateway" (gwSettings e)))) "channels" (channelsSettings e)
        = patchConfig e c0
      rw [h1, h2, h3, hstale, haigw, hchan]

/-! ### Allow-list merge facts and the C4 claim -/

theorem getK_none_of_not_valid (V : List String) (l : List (String × JVal))
    (k : String) (hl : l.all (fun kv => V.contains kv.1) = true)
    (hk : V.contains k = false) : getK l k = none := by
  apply getK_eq_none_of_forall
  intro kv hkv hkk
  rw [List.all_eq_true] at hl
  have hv := hl kv hkv
  rw [hkk, hk] at hv
  exact absurd hv (by decide)

theorem mem_keys_of_getK (l : List (String × JVal)) (k : String)
    (h : getK l k ≠ none) : k ∈ l.map Prod.fst := by
  induction l with
  | nil => exact absurd rfl h
  | cons kv rest ih =>
      obtain ⟨k0, v⟩ := kv
      by_cases h0 : k0 = k
      · subst h0; simp
      · simp only [getK, if_neg h0] at h
        simp [ih h]

theorem mem_strippedKeys (fields : List (String × JVal)) (V : List String)
    (k : String) (hk : V.contains k = false) (hget : getK fields k ≠ none) :
    k ∈ strippedKeys (.obj fields) V := by
  unfold strippedKeys
  rw [List.mem_filter]
  refine ⟨mem_keys_of_getK fields k hget, ?_⟩
  rw [hk]
  rfl

theorem telegramBlock_preserves (e : Env) (fields : List (String × JVal))
    (k : String) (hk : VALID_TELEGRAM_KEYS.contains k = true)
    (h1 : k ≠ "botToken") (h2 : k ≠ "enabled") (h3 : k ≠ "dmPolicy")
    (h4 : k ≠ "allowFrom") :
    getK (telegramBlock e (some (.obj fields))) k = getK fields k := by
  unfold telegramBlock
  rw [getK_telegramAllowFrom_ne _ _ _ h4, getK_telegramDefaultPolicy_ne _ _ h3,
    getK_telegramEnvPolicy_ne _ _ _ h3]
  unfold telegramBase
  rw [getK_setK_ne _ _ _ _ h2, getK_setK_ne _ _ _ _ h1]
  rw [show orEmptyObj (some (.obj fields)) = .obj fields from rfl]
  unfold filterKeys
  exact getK_filter _ _ _ (fun v => hk)

/-- C4: the configuration patch step is idempotent — patching a patched
document (any document, any environment) is a no-op — and a channel block
is an allow-list merge: a persisted key outside the valid key set is absent
from the merged block and is listed among the logged stripped keys (never
silently kept), a valid key that the environment overlay does not write is
preserved verbatim from the persisted block, and the environment overlay is
applied on top (e.g. `botToken` always holds the environment token). -/
theorem patch_idempotent_and_allowlist (e : Env) (c0 : JVal)
    (fields : List (String × JVal)) (k : String) :
    patchConfig e (patchConfig e c0) = patchConfig e c0
    ∧ (VALID_TELEGRAM_KEYS.contains k = false →
        getK (telegramBlock e (some (.obj fields))) k = none
        ∧ ((getK fields k).isNone = false →
            k ∈ strippedKeys (.obj fields) VALID_TELEGRAM_KEYS))
    ∧ (VALID_TELEGRAM_KEYS.contains k = true → k ≠ "botToken" → k ≠ "enabled" →
        k ≠ "dmPolicy" → k ≠ "allowFrom" →
        getK (telegramBlock e (some (.obj fields))) k = getK fields k)
    ∧ getK (telegramBlock e (some (.obj fields))) "botToken"
        = some (.str (e.telegramBotToken.getD "")) := by
  refine ⟨patchConfig_patchConfig e c0, fun hk => ⟨?_, fun hget => ?_⟩,
    fun hk h1 h2 h3 h4 => telegramBlock_preserves e fields k hk h1 h2 h3 h4,
    telegramBlock_botToken e _⟩
  · exact getK_none_of_not_valid _ _ _ (telegramBlock_allValid e _) hk
  · refine mem_strippedKeys fields _ k hk ?_
    intro hnone
    rw [hnone] at hget
    exact absurd hget (by decide)

/-- Witness for C4: with a Telegram bot token in the environment and a
persisted Telegram block holding one stale key and one valid customization,
the patch is idempotent on a document carrying that block, the stale key is
stripped and logged, the valid key survives, and the overlay wins. -/
theorem patch_idempotent_and_allowlist_witness :
    patchConfig { telegramBotToken := some "tok" }
        (patchConfig { telegramBotToken := some "tok" }
          (.obj [("channels", .obj [("telegram",
            .obj [("staleKey", .str "x"), ("name", .str "keep")])])]))
      = patchConfig { telegramBotToken := some "tok" }
          (.obj [("channels", .obj [("telegram",
            .obj [("staleKey", .str "x"), ("name", .str "keep")])])])
    ∧ getK (telegramBlock { telegramBotToken := some "tok" }
        (some (.obj [("staleKey", .str "x"), ("name", .str "keep")]))) "staleKey"
      = none
    ∧ "staleKey" ∈ strippedKeys
        (.obj [("staleKey", .str "x"), ("name", .str "keep")])
        VALID_TELEGRAM_KEYS
    ∧ getK (telegramBlock { telegramBotToken := some "tok" }
        (some (.obj [("staleKey", .str "x"), ("name", .str "keep")]))) "name"
      = getK [("staleKey", .str "x"), ("name", .str "keep")] "name"
    ∧ getK (telegramBlock { telegramBotToken := some "tok" }
        (some (.obj [("staleKey", .str "x"), ("name", .str "keep")]))) "botToken"
      = some (.str "tok") :=
  ⟨(patch_idempotent_and_allowlist { telegramBotToken := some "tok" }
      (.obj [("channels", .obj [("telegram",
        .obj [("staleKey", .str "x"), ("name", .str "keep")])])])
      [("staleKey", .str "x"), ("name", .str "keep")] "staleKey").1,
   ((patch_idempotent_and_allowlist { telegramBotToken := some "tok" } .null
      [("staleKey", .str "x"), ("name", .str "keep")] "staleKey").2.1
      (by decide)).1,
   ((patch_idempotent_and_allowlist { telegramBotToken := some "tok" } .null
      [("staleKey", .str "x"), ("name", .str "keep")] "staleKey").2.1
      (by decide)).2 (by decide),
   (patch_idempotent_and_allowlist { telegramBotToken := some "tok" } .null
      [("staleKey", .str "x"), ("name", .str "keep")] "name").2.2.1
      (by decide) (by decide) (by decide) (by decide) (by decide),
   (patch_idempotent_and_allowlist { telegramBotToken := some "tok" } .null
      [("staleKey", .str "x"), ("name", .str "keep")] "name").2.2.2⟩

/-- Witness for C8 (amended): a cold start launches with port 18789, bind
`lan`, no token (none set), child-wait mode, exit-code propagation, and the
lock is released once the script exits. -/
theorem launch_contract_witness :
    (ensureRunning sampleEnv sampleOracle quietWorld).launched.isSome = true
    ∧ (ensureRunning sampleEnv sampleOracle quietWorld).exitCode
        = some sampleOracle.gatewayExit
    ∧ (ensureRunning sampleEnv sampleOracle quietWorld).lockAfterExit = false := by
  have h := launch_contract sampleEnv sampleOracle quietWorld
  have hsp : (ensureRunning sampleEnv sampleOracle quietWorld).launched.isSome = true := rfl
  obtain ⟨sp, hspEq⟩ := Option.isSome_iff_exists.mp hsp
  have h1 := h.1 sp hspEq
  have h2 := h.2 (by rw [show (ensureRunning sampleEnv sampleOracle quietWorld).outcome
    = Outcome.started from rfl]; decide)
  exact ⟨hsp, h1.2.2.2.2.2.2.2, h2⟩

end Claw
